import Mathlib

/-!
# API gateway (practical 3) and order services (practicals 4 and 5)

A shallow embedding of

* `practical_3/practical-three/api-gateway/main.go`: `discoverService`, the two
  connection helpers, the four entity handlers and `getPurchaseDataHandler`;
* `practical_4/order-service/main.go`: `findService`;
* `practical_5/.../order-service/handlers/order_handlers.go`: `CreateOrder`.

External collaborators (the Consul registry, `grpc.Dial`, the gRPC backends, the
HTTP services called by `CreateOrder`, the database) are fields of an explicit
`World` record: a handler is a function of the world and of the request, and it
returns the HTTP response together with the trace of the external operations it
performed.
-/

namespace Gateway

/-! ## Data model -/

/-- A non-nil Go `error`, represented by the text of its `Error()` method. -/
abbrev Error := String

/-- The part of Consul's `api.AgentService` the code reads. -/
structure AgentService where
  Address : String
  Port : Int
  deriving DecidableEq, Repr

/-- The part of Consul's `api.ServiceEntry` the code reads. -/
structure ServiceEntry where
  Service : AgentService
  deriving DecidableEq, Repr

/-- The verb `%d` of `fmt.Sprintf` on a Go `uint`: decimal digits. -/
def fmtU (n : Nat) : String :=
  String.mk (Nat.toDigits 10 n)

/-- The verb `%d` of `fmt.Sprintf` on a Go `int`: decimal digits, with a leading
minus sign for a negative number. -/
def fmtD (n : Int) : String :=
  match n with
  | Int.ofNat m => fmtU m
  | Int.negSucc m => "-" ++ fmtU (m + 1)

/-- The registry query `Health().Service(serviceName, "", true, nil)`: the
instances of the service that pass their health checks, or the error of the call. -/
abbrev Registry := String → Except Error (List ServiceEntry)

/-- `discoverService` of the gateway (main.go lines 54-68). -/
def discoverService (registry : Registry) (serviceName : String) : Except Error String :=
  match registry serviceName with
  | .error err => .error err
  | .ok services =>
    match services with
    | [] => .error ("no healthy instances of " ++ serviceName ++ " found")
    | service :: _ => .ok (service.Service.Address ++ ":" ++ fmtD service.Service.Port)

/-- `findService` of the practical-4 order service (main.go lines 73-96).
`newClient` is the outcome of `consulapi.NewClient(config)`: `none` when the
client was created, the error otherwise. -/
def findService (newClient : Option Error) (registry : Registry) (serviceName : String) :
    Except Error String :=
  match newClient with
  | some err => .error err
  | none =>
    match registry serviceName with
    | .error err => .error err
    | .ok services =>
      match services with
      | [] => .error ("could not find any healthy instance of " ++ serviceName)
      | s :: _ => .ok ("http://" ++ s.Service.Address ++ ":" ++ fmtD s.Service.Port)

/-! ## The gateway's collaborators and its HTTP surface -/

/-- The two backend services of the gateway. -/
inductive Kind
  | users
  | products
  deriving DecidableEq, Repr

/-- A `*grpc.ClientConn`, identified by a number. -/
abbrev Conn := Nat

/-- The four remote operations of the generated clients. -/
inductive Op
  | CreateUser
  | GetUser
  | CreateProduct
  | GetProduct
  deriving DecidableEq, Repr

/-- The external operations a handler performs, in the order it performs them. -/
inductive Event
  /-- The registry query of `discoverService`. -/
  | lookup (serviceName : String)
  /-- The call `grpc.Dial` returned an error: no connection exists. -/
  | dialFailed (k : Kind) (address : String)
  /-- The call `grpc.Dial` returned the connection `conn`. -/
  | opened (k : Kind) (conn : Conn)
  /-- A remote operation invoked on `conn`. -/
  | call (op : Op) (conn : Conn)
  /-- The call `conn.Close()`. -/
  | closed (conn : Conn)
  /-- The response (status line, headers and body) written to the client. -/
  | write (status : Nat)
  deriving DecidableEq, Repr

/-- `pb.GetUserRequest`. -/
structure GetUserRequest where
  Id : String
  deriving DecidableEq, Repr

/-- `pb.GetProductRequest`. -/
structure GetProductRequest where
  Id : String
  deriving DecidableEq, Repr

/-- `pb.CreateUserResponse`: the field `User` is a pointer, `none` is nil. -/
structure CreateUserResponse (U : Type) where
  User : Option U

/-- `pb.GetUserResponse`: the field `User` is a pointer, `none` is nil. -/
structure GetUserResponse (U : Type) where
  User : Option U

/-- `pb.CreateProductResponse`: the field `Product` is a pointer, `none` is nil. -/
structure CreateProductResponse (P : Type) where
  Product : Option P

/-- `pb.GetProductResponse`: the field `Product` is a pointer, `none` is nil. -/
structure GetProductResponse (P : Type) where
  Product : Option P

/-- Everything outside the gateway process. The message types of the generated
package `pb` are parameters: `U` is `pb.User`, `P` is `pb.Product`, `CU` is
`pb.CreateUserRequest` and `CP` is `pb.CreateProductRequest`. -/
structure World (U P CU CP : Type) where
  /-- `consulClient.Health().Service(name, "", true, nil)`. -/
  registry : Registry
  /-- The outcome of `grpc.Dial(address, ...)` performed on behalf of service `k`.
  The call is made without `grpc.WithBlock()`: it does not wait for the transport,
  so its error is a failure of `Dial` itself (for instance a target it cannot
  parse), and a backend that cannot be reached shows as the error of the remote
  operation invoked on the connection. -/
  dial : Kind → String → Except Error Conn
  /-- `client.CreateUser(ctx, &req)` on a client bound to the connection. -/
  CreateUser : Conn → CU → Except Error (CreateUserResponse U)
  /-- `client.GetUser(ctx, &pb.GetUserRequest{...})`. -/
  GetUser : Conn → GetUserRequest → Except Error (GetUserResponse U)
  /-- `client.CreateProduct(ctx, &req)`. -/
  CreateProduct : Conn → CP → Except Error (CreateProductResponse P)
  /-- `client.GetProduct(ctx, &pb.GetProductRequest{...})`. -/
  GetProduct : Conn → GetProductRequest → Except Error (GetProductResponse P)
  /-- The value `json.NewDecoder(r.Body).Decode(&req)` leaves in `req`
  (the decoder's error is dropped by the handler). -/
  decodeCreateUser : String → CU
  /-- The same for `pb.CreateProductRequest`. -/
  decodeCreateProduct : String → CP

/-- An inbound `*http.Request`: its body and its route variables (`mux.Vars`;
a variable that is not set reads as the empty string). -/
structure Request where
  Body : String
  Vars : String → String

/-- `UserPurchaseData` (main.go lines 23-26): both fields are pointers. -/
structure UserPurchaseData (U P : Type) where
  User : Option U
  Product : Option P
  deriving DecidableEq, Repr

/-- The value handed to `json.NewEncoder(w).Encode`: a `*pb.User`, a
`*pb.Product` or a `UserPurchaseData`. -/
inductive Payload (U P : Type)
  | user (v : Option U)
  | product (v : Option P)
  | purchase (v : UserPurchaseData U P)
  deriving DecidableEq, Repr

/-- A response body: plain text, or the JSON encoding of a payload. -/
inductive Body (U P : Type)
  | text (s : String)
  | json (v : Payload U P)
  deriving DecidableEq, Repr

/-- What a handler writes to its `http.ResponseWriter`. -/
structure Response (U P : Type) where
  status : Nat
  contentType : String
  body : Body U P
  deriving DecidableEq, Repr

/-- `http.Error(w, msg, code)`: the message as one line of plain text. -/
def httpError {U P : Type} (msg : String) (code : Nat) : Response U P :=
  { status := code, contentType := "text/plain; charset=utf-8", body := .text (msg ++ "\n") }

/-- The pair `w.Header().Set("Content-Type", "application/json")`,
`json.NewEncoder(w).Encode(v)`: no status is set, so the status is 200. -/
def writeJSON {U P : Type} (v : Payload U P) : Response U P :=
  { status := 200, contentType := "application/json", body := .json v }

/-! ## Connections -/

section Handlers

variable {U P CU CP : Type}

/-- `getUsersServiceConnection` (main.go lines 71-84). The client and the
connection it is bound to are one value here. -/
def getUsersServiceConnection (w : World U P CU CP) : Except Error Conn × List Event :=
  match discoverService w.registry "users-service" with
  | .error err => (.error err, [.lookup "users-service"])
  | .ok address =>
    match w.dial .users address with
    | .error err => (.error err, [.lookup "users-service", .dialFailed .users address])
    | .ok conn => (.ok conn, [.lookup "users-service", .opened .users conn])

/-- `getProductsServiceConnection` (main.go lines 87-100). -/
def getProductsServiceConnection (w : World U P CU CP) : Except Error Conn × List Event :=
  match discoverService w.registry "products-service" with
  | .error err => (.error err, [.lookup "products-service"])
  | .ok address =>
    match w.dial .products address with
    | .error err => (.error err, [.lookup "products-service", .dialFailed .products address])
    | .ok conn => (.ok conn, [.lookup "products-service", .opened .products conn])

/-! ## Entity handlers -/

/-- `createUserHandler` (main.go lines 103-122). The deferred `conn.Close()`
runs after the response is written. -/
def createUserHandler (w : World U P CU CP) (r : Request) : Response U P × List Event :=
  match getUsersServiceConnection w with
  | (.error err, t) =>
    (httpError ("Service discovery failed: " ++ err) 503, t ++ [.write 503])
  | (.ok conn, t) =>
    let req := w.decodeCreateUser r.Body
    match w.CreateUser conn req with
    | .error err =>
      (httpError err 500, t ++ [.call .CreateUser conn, .write 500, .closed conn])
    | .ok res =>
      (writeJSON (.user res.User), t ++ [.call .CreateUser conn, .write 200, .closed conn])

/-- `getUserHandler` (main.go lines 124-143). -/
def getUserHandler (w : World U P CU CP) (r : Request) : Response U P × List Event :=
  match getUsersServiceConnection w with
  | (.error err, t) =>
    (httpError ("Service discovery failed: " ++ err) 503, t ++ [.write 503])
  | (.ok conn, t) =>
    let id := r.Vars "id"
    match w.GetUser conn { Id := id } with
    | .error err =>
      (httpError err 404, t ++ [.call .GetUser conn, .write 404, .closed conn])
    | .ok res =>
      (writeJSON (.user res.User), t ++ [.call .GetUser conn, .write 200, .closed conn])

/-- `createProductHandler` (main.go lines 146-165). -/
def createProductHandler (w : World U P CU CP) (r : Request) : Response U P × List Event :=
  match getProductsServiceConnection w with
  | (.error err, t) =>
    (httpError ("Service discovery failed: " ++ err) 503, t ++ [.write 503])
  | (.ok conn, t) =>
    let req := w.decodeCreateProduct r.Body
    match w.CreateProduct conn req with
    | .error err =>
      (httpError err 500, t ++ [.call .CreateProduct conn, .write 500, .closed conn])
    | .ok res =>
      (writeJSON (.product res.Product),
        t ++ [.call .CreateProduct conn, .write 200, .closed conn])

/-- `getProductHandler` (main.go lines 167-186). -/
def getProductHandler (w : World U P CU CP) (r : Request) : Response U P × List Event :=
  match getProductsServiceConnection w with
  | (.error err, t) =>
    (httpError ("Service discovery failed: " ++ err) 503, t ++ [.write 503])
  | (.ok conn, t) =>
    let id := r.Vars "id"
    match w.GetProduct conn { Id := id } with
    | .error err =>
      (httpError err 404, t ++ [.call .GetProduct conn, .write 404, .closed conn])
    | .ok res =>
      (writeJSON (.product res.Product),
        t ++ [.call .GetProduct conn, .write 200, .closed conn])

/-! ## Aggregation handler -/

/-- The outcome slots of one branch of `getPurchaseDataHandler`: the entity
pointer (`user` or `product`) and the error (`userErr` or `productErr`), both nil
when the handler starts. -/
structure Outcome (α : Type) where
  value : Option α
  err : Option Error
  deriving DecidableEq, Repr

/-- The first goroutine of `getPurchaseDataHandler` (main.go lines 202-217),
run on its own: the slots `user`, `userErr` it leaves and its events. -/
def fetchUser (w : World U P CU CP) (userId : String) : Outcome U × List Event :=
  match getUsersServiceConnection w with
  | (.error err, t) => ({ value := none, err := some err }, t)
  | (.ok conn, t) =>
    match w.GetUser conn { Id := userId } with
    | .error err =>
      ({ value := none, err := some err }, t ++ [.call .GetUser conn, .closed conn])
    | .ok res =>
      ({ value := res.User, err := none }, t ++ [.call .GetUser conn, .closed conn])

/-- The second goroutine of `getPurchaseDataHandler` (main.go lines 220-235). -/
def fetchProduct (w : World U P CU CP) (productId : String) : Outcome P × List Event :=
  match getProductsServiceConnection w with
  | (.error err, t) => ({ value := none, err := some err }, t)
  | (.ok conn, t) =>
    match w.GetProduct conn { Id := productId } with
    | .error err =>
      ({ value := none, err := some err }, t ++ [.call .GetProduct conn, .closed conn])
    | .ok res =>
      ({ value := res.Product, err := none }, t ++ [.call .GetProduct conn, .closed conn])

/-- The code of `getPurchaseDataHandler` after `wg.Wait()` (main.go lines 239-255). -/
def respondPurchase (user : Outcome U) (product : Outcome P) : Response U P :=
  match user.err with
  | some userErr => httpError ("Failed to get user data: " ++ userErr) 404
  | none =>
    match product.err with
    | some productErr => httpError ("Failed to get product data: " ++ productErr) 404
    | none => writeJSON (.purchase { User := user.value, Product := product.value })

/-- `getPurchaseDataHandler` (main.go lines 189-256). The trace lists the events
of the user branch before those of the product branch; the interleavings of the
two goroutines are the subject of the scheduler model below. -/
def getPurchaseDataHandler (w : World U P CU CP) (r : Request) : Response U P × List Event :=
  let userId := r.Vars "userId"
  let productId := r.Vars "productId"
  let u := fetchUser w userId
  let p := fetchProduct w productId
  let resp := respondPurchase u.1 p.1
  (resp, u.2 ++ p.2 ++ [.write resp.status])

/-! ## Routing table and trace observations -/

/-- The four entity routes registered in `main` (main.go lines 40-44). -/
inductive EntityHandler
  | createUser
  | getUser
  | createProduct
  | getProduct
  deriving DecidableEq, Repr

/-- The backend service an entity handler talks to. -/
def EntityHandler.kind : EntityHandler → Kind
  | .createUser => .users
  | .getUser => .users
  | .createProduct => .products
  | .getProduct => .products

/-- The remote operation an entity handler invokes. -/
def EntityHandler.op : EntityHandler → Op
  | .createUser => .CreateUser
  | .getUser => .GetUser
  | .createProduct => .CreateProduct
  | .getProduct => .GetProduct

/-- The name under which a backend service is looked up in the registry. -/
def Kind.serviceName : Kind → String
  | .users => "users-service"
  | .products => "products-service"

/-- The connection helper of a service. -/
def connect (w : World U P CU CP) : Kind → Except Error Conn × List Event
  | .users => getUsersServiceConnection w
  | .products => getProductsServiceConnection w

/-- The handler registered for an entity route. -/
def EntityHandler.run (h : EntityHandler) (w : World U P CU CP) (r : Request) :
    Response U P × List Event :=
  match h with
  | .createUser => createUserHandler w r
  | .getUser => getUserHandler w r
  | .createProduct => createProductHandler w r
  | .getProduct => getProductHandler w r

/-- The connections a trace opened, in order. -/
def opens : List Event → List Conn
  | [] => []
  | .opened _ conn :: t => conn :: opens t
  | _ :: t => opens t

/-- The connections a trace closed, in order. -/
def closes : List Event → List Conn
  | [] => []
  | .closed conn :: t => conn :: closes t
  | _ :: t => closes t

/-- The remote operations a trace invoked, in order. -/
def calls : List Event → List Op
  | [] => []
  | .call op _ :: t => op :: calls t
  | _ :: t => calls t

/-- The number of calls of `grpc.Dial` in a trace, failed or not. -/
def dials : List Event → Nat
  | [] => 0
  | .opened _ _ :: t => dials t + 1
  | .dialFailed _ _ :: t => dials t + 1
  | _ :: t => dials t

/-- The release discipline of one handler or branch run: `c` is the outcome of
its connection helper and `t` its trace. A connection that was opened is the
only one opened and the only one closed, and its close is the last event of the
run; when no connection was opened nothing is closed. -/
def ReleasedOnce (c : Except Error Conn) (t : List Event) : Prop :=
  match c with
  | .ok conn => opens t = [conn] ∧ closes t = [conn] ∧ t.getLast? = some (.closed conn)
  | .error _ => opens t = [] ∧ closes t = []

/-! ## The goroutines of the aggregation handler under a scheduler

`getPurchaseDataHandler` runs three threads: the handler itself and the two
goroutines it starts. A state records the program point of each, the counter of
the `sync.WaitGroup`, the outcome slots and the events of each branch, and the
response once written. One step is one atomic action of one thread; a schedule
is the list of the threads picked, in order.
-/

/-- Program points of a branch goroutine. -/
inductive BranchPc
  /-- The `go` statement of the branch has not run. -/
  | idle
  /-- Started; next `discoverService` inside the connection helper. -/
  | start
  /-- The service resolved to `address`; next `grpc.Dial`. -/
  | resolved (address : String)
  /-- The helper returned `conn`, its close is deferred; next the remote call. -/
  | connected (conn : Conn)
  /-- The body returned; next the deferred `conn.Close()`. -/
  | closing (conn : Conn)
  /-- Next the deferred `wg.Done()`. -/
  | exiting
  /-- The goroutine has returned. -/
  | done
  deriving DecidableEq, Repr

/-- A branch goroutine: its program point, its outcome slots, its events so far. -/
structure BranchState (α : Type) where
  pc : BranchPc
  slot : Outcome α
  trace : List Event

/-- One action of the user goroutine (main.go lines 202-217) short of its
`wg.Done()`, which touches the shared counter and is a step of the machine. -/
def stepUser (w : World U P CU CP) (userId : String) (b : BranchState U) : BranchState U :=
  match b.pc with
  | .idle => b
  | .start =>
    match discoverService w.registry "users-service" with
    | .error err =>
      { pc := .exiting, slot := { b.slot with err := some err },
        trace := b.trace ++ [.lookup "users-service"] }
    | .ok address =>
      { b with pc := .resolved address, trace := b.trace ++ [.lookup "users-service"] }
  | .resolved address =>
    match w.dial .users address with
    | .error err =>
      { pc := .exiting, slot := { b.slot with err := some err },
        trace := b.trace ++ [.dialFailed .users address] }
    | .ok conn => { b with pc := .connected conn, trace := b.trace ++ [.opened .users conn] }
  | .connected conn =>
    match w.GetUser conn { Id := userId } with
    | .error err =>
      { pc := .closing conn, slot := { b.slot with err := some err },
        trace := b.trace ++ [.call .GetUser conn] }
    | .ok res =>
      { pc := .closing conn, slot := { b.slot with value := res.User },
        trace := b.trace ++ [.call .GetUser conn] }
  | .closing conn => { b with pc := .exiting, trace := b.trace ++ [.closed conn] }
  | .exiting => b
  | .done => b

/-- One action of the product goroutine (main.go lines 220-235) short of its
`wg.Done()`. -/
def stepProduct (w : World U P CU CP) (productId : String) (b : BranchState P) :
    BranchState P :=
  match b.pc with
  | .idle => b
  | .start =>
    match discoverService w.registry "products-service" with
    | .error err =>
      { pc := .exiting, slot := { b.slot with err := some err },
        trace := b.trace ++ [.lookup "products-service"] }
    | .ok address =>
      { b with pc := .resolved address, trace := b.trace ++ [.lookup "products-service"] }
  | .resolved address =>
    match w.dial .products address with
    | .error err =>
      { pc := .exiting, slot := { b.slot with err := some err },
        trace := b.trace ++ [.dialFailed .products address] }
    | .ok conn =>
      { b with pc := .connected conn, trace := b.trace ++ [.opened .products conn] }
  | .connected conn =>
    match w.GetProduct conn { Id := productId } with
    | .error err =>
      { pc := .closing conn, slot := { b.slot with err := some err },
        trace := b.trace ++ [.call .GetProduct conn] }
    | .ok res =>
      { pc := .closing conn, slot := { b.slot with value := res.Product },
        trace := b.trace ++ [.call .GetProduct conn] }
  | .closing conn => { b with pc := .exiting, trace := b.trace ++ [.closed conn] }
  | .exiting => b
  | .done => b

/-- Program points of the handler's own thread. -/
inductive MainPc
  /-- Variables declared; next `wg.Add(2)`. -/
  | entry
  /-- Next the first `go` statement. -/
  | added
  /-- Next the second `go` statement. -/
  | spawnedUser
  /-- At `wg.Wait()`. -/
  | waiting
  /-- Past `wg.Wait()`; next the response (lines 239-255). -/
  | joined
  /-- The handler has returned. -/
  | returned
  deriving DecidableEq, Repr

/-- The three threads of one aggregation request. -/
inductive Thread
  | main
  | user
  | product
  deriving DecidableEq, Repr

/-- The state of one aggregation request. -/
structure AggState (U P : Type) where
  main : MainPc
  /-- The counter of the `sync.WaitGroup`. -/
  wg : Int
  user : BranchState U
  product : BranchState P
  /-- The response, once the handler has written it. -/
  response : Option (Response U P)

/-- The state on entry to `getPurchaseDataHandler`: nothing started, every slot
nil, the counter zero. -/
def AggState.init : AggState U P :=
  { main := .entry, wg := 0
    user := { pc := .idle, slot := { value := none, err := none }, trace := [] }
    product := { pc := .idle, slot := { value := none, err := none }, trace := [] }
    response := none }

/-- One step of thread `t`, or `none` when `t` cannot move: a goroutine that is
not started or has returned, the handler blocked in `wg.Wait()` on a counter that
is not zero, the handler after its return. -/
def step (w : World U P CU CP) (r : Request) (t : Thread) (s : AggState U P) :
    Option (AggState U P) :=
  match t with
  | .main =>
    match s.main with
    | .entry => some { s with main := .added, wg := s.wg + 2 }
    | .added => some { s with main := .spawnedUser, user := { s.user with pc := .start } }
    | .spawnedUser =>
      some { s with main := .waiting, product := { s.product with pc := .start } }
    | .waiting => if s.wg = 0 then some { s with main := .joined } else none
    | .joined =>
      some { s with main := .returned,
                    response := some (respondPurchase s.user.slot s.product.slot) }
    | .returned => none
  | .user =>
    match s.user.pc with
    | .idle => none
    | .done => none
    | .exiting => some { s with wg := s.wg - 1, user := { s.user with pc := .done } }
    | _ => some { s with user := stepUser w (r.Vars "userId") s.user }
  | .product =>
    match s.product.pc with
    | .idle => none
    | .done => none
    | .exiting => some { s with wg := s.wg - 1, product := { s.product with pc := .done } }
    | _ => some { s with product := stepProduct w (r.Vars "productId") s.product }

/-- Run a schedule: each pick moves its thread by one step when the thread can
move and is skipped otherwise. -/
def run (w : World U P CU CP) (r : Request) : List Thread → AggState U P → AggState U P
  | [], s => s
  | t :: sched, s =>
    match step w r t s with
    | some s' => run w r sched s'
    | none => run w r sched s

/-- The number of steps a branch goroutine has left at most. -/
def BranchPc.left : BranchPc → Nat
  | .idle => 5
  | .start => 5
  | .resolved _ => 4
  | .connected _ => 3
  | .closing _ => 2
  | .exiting => 1
  | .done => 0

/-- The number of steps the handler's own thread has left. -/
def MainPc.left : MainPc → Nat
  | .entry => 5
  | .added => 4
  | .spawnedUser => 3
  | .waiting => 2
  | .joined => 1
  | .returned => 0

/-- The number of steps an aggregation request has left at most. -/
def AggState.left (s : AggState U P) : Nat :=
  s.main.left + s.user.pc.left + s.product.pc.left

/-- What the user goroutine has established at each of its program points,
stated against its run in isolation, `fetchUser`. -/
def UserInv (w : World U P CU CP) (userId : String) (b : BranchState U) : Prop :=
  match b.pc with
  | .idle => b.slot = { value := none, err := none } ∧ b.trace = []
  | .start => b.slot = { value := none, err := none } ∧ b.trace = []
  | .resolved address =>
    discoverService w.registry "users-service" = .ok address ∧
    b.slot = { value := none, err := none } ∧ b.trace = [.lookup "users-service"]
  | .connected conn =>
    getUsersServiceConnection w = (.ok conn, b.trace) ∧
    b.slot = { value := none, err := none }
  | .closing conn => fetchUser w userId = (b.slot, b.trace ++ [.closed conn])
  | .exiting => fetchUser w userId = (b.slot, b.trace)
  | .done => fetchUser w userId = (b.slot, b.trace)

/-- What the product goroutine has established at each of its program points,
stated against its run in isolation, `fetchProduct`. -/
def ProductInv (w : World U P CU CP) (productId : String) (b : BranchState P) : Prop :=
  match b.pc with
  | .idle => b.slot = { value := none, err := none } ∧ b.trace = []
  | .start => b.slot = { value := none, err := none } ∧ b.trace = []
  | .resolved address =>
    discoverService w.registry "products-service" = .ok address ∧
    b.slot = { value := none, err := none } ∧ b.trace = [.lookup "products-service"]
  | .connected conn =>
    getProductsServiceConnection w = (.ok conn, b.trace) ∧
    b.slot = { value := none, err := none }
  | .closing conn => fetchProduct w productId = (b.slot, b.trace ++ [.closed conn])
  | .exiting => fetchProduct w productId = (b.slot, b.trace)
  | .done => fetchProduct w productId = (b.slot, b.trace)

/-- The number of goroutines that have not yet called `wg.Done()`. -/
def AggState.pending (s : AggState U P) : Int :=
  (if s.user.pc = .done then 0 else 1) + (if s.product.pc = .done then 0 else 1)

/-- The invariant of an aggregation request: what each thread has established,
and how the program point of the handler constrains the goroutines, the counter
and the response. -/
def AggInv (w : World U P CU CP) (r : Request) (s : AggState U P) : Prop :=
  UserInv w (r.Vars "userId") s.user ∧
  ProductInv w (r.Vars "productId") s.product ∧
  match s.main with
  | .entry => s.wg = 0 ∧ s.user.pc = .idle ∧ s.product.pc = .idle ∧ s.response = none
  | .added => s.wg = 2 ∧ s.user.pc = .idle ∧ s.product.pc = .idle ∧ s.response = none
  | .spawnedUser =>
    s.wg = s.pending ∧ s.user.pc ≠ .idle ∧ s.product.pc = .idle ∧ s.response = none
  | .waiting =>
    s.wg = s.pending ∧ s.user.pc ≠ .idle ∧ s.product.pc ≠ .idle ∧ s.response = none
  | .joined => s.user.pc = .done ∧ s.product.pc = .done ∧ s.response = none
  | .returned =>
    s.user.pc = .done ∧ s.product.pc = .done ∧
    s.response = some (respondPurchase s.user.slot s.product.slot)

end Handlers

/-! ## Sample worlds -/

/-- A sample instance of the message types `pb.User` and `pb.Product`, with the
fields of the spec's scenario A. -/
structure Entity where
  Id : String
  Name : String
  deriving DecidableEq, Repr

/-- Two healthy instances of every service. -/
def twoInstances : Registry :=
  fun _ => .ok [⟨⟨"10.0.0.5", 9000⟩⟩, ⟨⟨"10.0.0.6", 9001⟩⟩]

/-- A world in which every service has healthy instances, every dial succeeds
(connection 1 for users, 2 for products) and every backend stores `Ann` under
every identifier it is asked for. -/
def healthyWorld : World Entity Entity String String :=
  { registry := twoInstances
    dial := fun k _ => match k with
      | .users => .ok 1
      | .products => .ok 2
    CreateUser := fun _ req => .ok { User := some { Id := "1", Name := req } }
    GetUser := fun _ req => .ok { User := some { Id := req.Id, Name := "Ann" } }
    CreateProduct := fun _ req => .ok { Product := some { Id := "1", Name := req } }
    GetProduct := fun _ req => .ok { Product := some { Id := req.Id, Name := "Pen" } }
    decodeCreateUser := fun body => body
    decodeCreateProduct := fun body => body }

/-- The healthy world with a registry that has no healthy instance of any service. -/
def emptyRegistryWorld : World Entity Entity String String :=
  { healthyWorld with registry := fun _ => .ok [] }

/-- The healthy world with backends that refuse every connection: `grpc.Dial`
does not wait for the transport and returns its connection, and every remote
operation fails with the transport's error. -/
def refusedTransportWorld : World Entity Entity String String :=
  { healthyWorld with
    CreateUser := fun _ _ => .error "rpc error: code = Unavailable desc = connection refused"
    GetUser := fun _ _ => .error "rpc error: code = Unavailable desc = connection refused"
    CreateProduct := fun _ _ =>
      .error "rpc error: code = Unavailable desc = connection refused"
    GetProduct := fun _ _ => .error "rpc error: code = Unavailable desc = connection refused" }

/-- A world whose registry hands out an address that `grpc.Dial` cannot parse, so
that `Dial` itself returns an error. -/
def dialErrorWorld : World Entity Entity String String :=
  { healthyWorld with
    registry := fun _ => .ok [⟨⟨"%zz", 9000⟩⟩]
    dial := fun _ _ => .error "invalid URL escape" }

/-- The healthy world with backends that answer every call with an error. -/
def failingBackendWorld : World Entity Entity String String :=
  { healthyWorld with
    CreateUser := fun _ _ => .error "rpc error: users"
    GetUser := fun _ _ => .error "rpc error: users"
    CreateProduct := fun _ _ => .error "rpc error: products"
    GetProduct := fun _ _ => .error "rpc error: products" }

/-- The healthy world with a users backend whose successful `GetUser` reply
leaves the field `User` unset. -/
def emptyReplyWorld : World Entity Entity String String :=
  { healthyWorld with GetUser := fun _ _ => .ok { User := none } }

/-- The healthy world with backends that answer every `Get` with the entity
stored under identifier `2`. -/
def otherIdWorld : World Entity Entity String String :=
  { healthyWorld with
    GetUser := fun _ _ => .ok { User := some { Id := "2", Name := "Bob" } }
    GetProduct := fun _ _ => .ok { Product := some { Id := "2", Name := "Ink" } } }

/-- The healthy world with a registry that has no healthy instance of
`products-service`. -/
def noProductsWorld : World Entity Entity String String :=
  { healthyWorld with
    registry := fun name => if name = "products-service" then .ok [] else twoInstances name }

/-- A schedule in which the product goroutine fails and returns before the user
goroutine has taken a step, and the handler is then picked at `wg.Wait()`. -/
def productFirst : List Thread :=
  [.main, .main, .main, .product, .product, .main, .main]

/-- The rest of a schedule after `productFirst`: the user goroutine runs, then
the handler. -/
def userThenMain : List Thread :=
  [.user, .user, .user, .user, .user, .main, .main]

/-- The request `GET /api/users/42` (also `GET /api/products/42`). -/
def get42 : Request :=
  { Body := "", Vars := fun v => if v = "id" then "42" else "" }

/-- The request `GET /api/purchases/user/7/product/3`. -/
def purchase73 : Request :=
  { Body := ""
    Vars := fun v => if v = "userId" then "7" else if v = "productId" then "3" else "" }

/-- A request `POST /api/users` (also `POST /api/products`) with body `Ann`. -/
def postAnn : Request :=
  { Body := "Ann", Vars := fun _ => "" }

end Gateway

/-! # The order service of practical 5 -/

namespace OrderService

open Gateway (Error fmtU)

/-- An `*http.Response` as `CreateOrder` reads it. -/
structure HttpResponse where
  StatusCode : Nat
  Body : String
  deriving DecidableEq, Repr

/-- The fields of `models.OrderItem` that `CreateOrder` sets (the declaration
is in `order-service/models`). `Price` stands for `float64`. -/
structure OrderItem (Price : Type) where
  MenuItemID : Nat
  Quantity : Int
  Price : Price
  deriving DecidableEq, Repr

/-- The fields of `models.Order` that `CreateOrder` sets (the declaration is
in `order-service/models`). -/
structure Order (Price : Type) where
  UserID : Nat
  Status : String
  OrderItems : List (OrderItem Price)
  deriving DecidableEq, Repr

/-- An element of `CreateOrderRequest.Items`. -/
structure Item where
  MenuItemID : Nat
  Quantity : Int
  deriving DecidableEq, Repr

/-- `CreateOrderRequest` (order_handlers.go lines 13-19). -/
structure CreateOrderRequest where
  UserID : Nat
  Items : List Item
  deriving DecidableEq, Repr

/-- Everything outside `CreateOrder`. -/
structure World (Price : Type) where
  /-- `json.NewDecoder(r.Body).Decode(&req)`: the request, or the decoder's error. -/
  decodeRequest : String → Except Error CreateOrderRequest
  /-- `http.Get(url)`. -/
  httpGet : String → Except Error HttpResponse
  /-- The value `json.NewDecoder(menuResp.Body).Decode(&menuItem)` leaves in
  `menuItem.Price` (the decoder's error is dropped by the handler). -/
  decodePrice : String → Price
  /-- `database.DB.Create(&order)`: the order as the database layer leaves it,
  or its error. -/
  dbCreate : Order Price → Except Error (Order Price)

/-- The external operations of `CreateOrder`, in order. -/
inductive Event (Price : Type)
  | get (url : String)
  | create (order : Order Price)
  deriving DecidableEq, Repr

/-- A response body of the order service. -/
inductive Body (Price : Type)
  | text (s : String)
  | json (order : Order Price)
  deriving DecidableEq, Repr

/-- What `CreateOrder` writes to its `http.ResponseWriter`. -/
structure Response (Price : Type) where
  status : Nat
  contentType : String
  body : Body Price
  deriving DecidableEq, Repr

/-- `http.Error(w, msg, code)`. -/
def httpError {Price : Type} (msg : String) (code : Nat) : Response Price :=
  { status := code, contentType := "text/plain; charset=utf-8", body := .text (msg ++ "\n") }

/-- The URL `fmt.Sprintf("%s/users/%d", userServiceURL, id)`. -/
def userURL (id : Nat) : String :=
  "http://user-service:8081" ++ "/users/" ++ fmtU id

/-- The URL `fmt.Sprintf("%s/menu/%d", menuServiceURL, id)`. -/
def menuURL (id : Nat) : String :=
  "http://menu-service:8082" ++ "/menu/" ++ fmtU id

section

variable {Price : Type}

/-- The loop of `CreateOrder` over `req.Items` (order_handlers.go lines 45-65).
`acc` is `order.OrderItems` on entry; the result is `none` when the loop left the
handler with "Menu item not found", and the final `order.OrderItems` otherwise. -/
def menuLoop (w : World Price) :
    List Item → List (OrderItem Price) → Option (List (OrderItem Price)) × List (Event Price)
  | [], acc => (some acc, [])
  | item :: rest, acc =>
    match w.httpGet (menuURL item.MenuItemID) with
    | .error _ => (none, [.get (menuURL item.MenuItemID)])
    | .ok menuResp =>
      if menuResp.StatusCode ≠ 200 then (none, [.get (menuURL item.MenuItemID)])
      else
        let orderItem : OrderItem Price :=
          { MenuItemID := item.MenuItemID, Quantity := item.Quantity,
            Price := w.decodePrice menuResp.Body }
        let out := menuLoop w rest (acc ++ [orderItem])
        (out.1, .get (menuURL item.MenuItemID) :: out.2)

/-- `CreateOrder` (order_handlers.go lines 21-75) on a request with the given body. -/
def CreateOrder (w : World Price) (body : String) : Response Price × List (Event Price) :=
  match w.decodeRequest body with
  | .error err => (httpError err 400, [])
  | .ok req =>
    match w.httpGet (userURL req.UserID) with
    | .error _ => (httpError "User not found" 400, [.get (userURL req.UserID)])
    | .ok userResp =>
      if userResp.StatusCode ≠ 200 then
        (httpError "User not found" 400, [.get (userURL req.UserID)])
      else
        let order : Order Price := { UserID := req.UserID, Status := "pending", OrderItems := [] }
        match menuLoop w req.Items order.OrderItems with
        | (none, t) => (httpError "Menu item not found" 400, .get (userURL req.UserID) :: t)
        | (some items, t) =>
          let order := { order with OrderItems := items }
          match w.dbCreate order with
          | .error err =>
            (httpError err 500, .get (userURL req.UserID) :: t ++ [.create order])
          | .ok saved =>
            ({ status := 201, contentType := "application/json", body := .json saved },
              .get (userURL req.UserID) :: t ++ [.create order])

/-- The orders handed to `database.DB.Create` in a trace, in order. -/
def creates : List (Event Price) → List (Order Price)
  | [] => []
  | .create order :: t => order :: creates t
  | .get _ :: t => creates t

/-- The lookup `http.Get(url)` returned a response with status 200. -/
def Replied200 (w : World Price) (url : String) : Prop :=
  ∃ resp, w.httpGet url = .ok resp ∧ resp.StatusCode = 200

/-- An order item snapshots a request item: the same menu item and quantity, and
the price decoded from the menu service's 200 reply for that menu item. -/
def Snapshots (w : World Price) (item : Item) (orderItem : OrderItem Price) : Prop :=
  orderItem.MenuItemID = item.MenuItemID ∧ orderItem.Quantity = item.Quantity ∧
  ∃ resp, w.httpGet (menuURL item.MenuItemID) = .ok resp ∧ resp.StatusCode = 200 ∧
    orderItem.Price = w.decodePrice resp.Body

end

/-- A sample world: user 1 exists, menu items 1 and 2 exist with prices 250 and
500 (the body of a menu reply is its price in hundredths), every other lookup
answers 404, the database stores every order unchanged. -/
def sampleWorld : World Nat :=
  { decodeRequest := fun body =>
      if body = "order" then
        .ok { UserID := 1, Items := [⟨2, 3⟩, ⟨1, 1⟩] }
      else if body = "unknown item" then
        .ok { UserID := 1, Items := [⟨2, 3⟩, ⟨9, 1⟩] }
      else .error "unexpected end of JSON input"
    httpGet := fun url =>
      if url = "http://user-service:8081/users/1" then .ok ⟨200, ""⟩
      else if url = "http://menu-service:8082/menu/1" then .ok ⟨200, "250"⟩
      else if url = "http://menu-service:8082/menu/2" then .ok ⟨200, "500"⟩
      else .ok ⟨404, ""⟩
    decodePrice := fun body => if body = "250" then 250 else if body = "500" then 500 else 0
    dbCreate := fun order => .ok order }

end OrderService

namespace Gateway

/-! # Theorems -/

section Theorems

variable {U P CU CP : Type}

/-- C3. `discoverService` fails with the registry's error when the registry call
errors, fails with "no healthy instances of NAME found" on an empty list, and on a
list of one or more instances returns "ADDRESS:PORT" of the first one, whatever
the later ones are; `findService` (its client created) returns
"http://ADDRESS:PORT" of the same first instance. -/
theorem discoverService_resolve (registry : Registry) (serviceName : String) :
    (∀ err, registry serviceName = .error err →
      discoverService registry serviceName = .error err) ∧
    (registry serviceName = .ok [] →
      discoverService registry serviceName
        = .error ("no healthy instances of " ++ serviceName ++ " found")) ∧
    (∀ first rest, registry serviceName = .ok (first :: rest) →
      discoverService registry serviceName
        = .ok (first.Service.Address ++ ":" ++ fmtD first.Service.Port) ∧
      findService none registry serviceName
        = .ok ("http://" ++ first.Service.Address ++ ":" ++ fmtD first.Service.Port)) := by
  refine ⟨?_, ?_, ?_⟩
  · intro err h
    simp [discoverService, h]
  · intro h
    simp [discoverService, h]
  · intro first rest h
    simp [discoverService, findService, h]

/-- Witness of C3: with instances `10.0.0.5:9000` and `10.0.0.6:9001`, in this
order, both functions select the first. -/
theorem discoverService_resolve_witness :
    twoInstances "users-service" = .ok [⟨⟨"10.0.0.5", 9000⟩⟩, ⟨⟨"10.0.0.6", 9001⟩⟩] ∧
    discoverService twoInstances "users-service" = .ok "10.0.0.5:9000" ∧
    findService none twoInstances "users-service" = .ok "http://10.0.0.5:9000" :=
  ⟨rfl, (discoverService_resolve twoInstances "users-service").2.2
    ⟨⟨"10.0.0.5", 9000⟩⟩ [⟨⟨"10.0.0.6", 9001⟩⟩] rfl⟩

/-- C1. The response of `getPurchaseDataHandler` is selected from the outcomes
of its two branches: when the user branch left an error, 404 with the line
"Failed to get user data: ERR", whatever the product branch left; otherwise, when
the product branch left an error, 404 with "Failed to get product data: ERR";
otherwise 200 with the JSON object of the two fetched entities. -/
theorem getPurchaseDataHandler_selects (w : World U P CU CP) (r : Request) :
    (∀ userErr, (fetchUser w (r.Vars "userId")).1.err = some userErr →
      (getPurchaseDataHandler w r).1 =
        { status := 404, contentType := "text/plain; charset=utf-8",
          body := .text ("Failed to get user data: " ++ userErr ++ "\n") }) ∧
    ((fetchUser w (r.Vars "userId")).1.err = none →
      ∀ productErr, (fetchProduct w (r.Vars "productId")).1.err = some productErr →
      (getPurchaseDataHandler w r).1 =
        { status := 404, contentType := "text/plain; charset=utf-8",
          body := .text ("Failed to get product data: " ++ productErr ++ "\n") }) ∧
    ((fetchUser w (r.Vars "userId")).1.err = none →
      (fetchProduct w (r.Vars "productId")).1.err = none →
      (getPurchaseDataHandler w r).1 =
        { status := 200, contentType := "application/json",
          body := .json (.purchase
            { User := (fetchUser w (r.Vars "userId")).1.value,
              Product := (fetchProduct w (r.Vars "productId")).1.value }) }) := by
  refine ⟨?_, ?_, ?_⟩
  · intro userErr h
    simp [getPurchaseDataHandler, respondPurchase, h, httpError]
  · intro hu productErr hp
    simp [getPurchaseDataHandler, respondPurchase, hu, hp, httpError]
  · intro hu hp
    simp [getPurchaseDataHandler, respondPurchase, hu, hp, writeJSON]

/-- Witness of C1: with both backends failing, the user branch's error is the
one reported. -/
theorem getPurchaseDataHandler_selects_witness :
    (fetchUser failingBackendWorld "7").1.err = some "rpc error: users" ∧
    (fetchProduct failingBackendWorld "3").1.err = some "rpc error: products" ∧
    (getPurchaseDataHandler failingBackendWorld purchase73).1 =
      { status := 404, contentType := "text/plain; charset=utf-8",
        body := .text "Failed to get user data: rpc error: users\n" } :=
  ⟨rfl, rfl, (getPurchaseDataHandler_selects failingBackendWorld purchase73).1
    "rpc error: users" rfl⟩

/-- The user branch's value is the `User` field of a successful reply. -/
theorem fetchUser_value (w : World U P CU CP) (userId : String)
    (h : (fetchUser w userId).1.err = none) :
    ∃ conn res, w.GetUser conn { Id := userId } = .ok res ∧
      (fetchUser w userId).1.value = res.User := by
  unfold fetchUser at h ⊢
  split at h
  · simp at h
  · rename_i conn t _
    cases hr : w.GetUser conn { Id := userId } with
    | error e => simp [hr] at h
    | ok res => exact ⟨conn, res, hr, by simp⟩

/-- The product branch's value is the `Product` field of a successful reply. -/
theorem fetchProduct_value (w : World U P CU CP) (productId : String)
    (h : (fetchProduct w productId).1.err = none) :
    ∃ conn res, w.GetProduct conn { Id := productId } = .ok res ∧
      (fetchProduct w productId).1.value = res.Product := by
  unfold fetchProduct at h ⊢
  split at h
  · simp at h
  · rename_i conn t _
    cases hr : w.GetProduct conn { Id := productId } with
    | error e => simp [hr] at h
    | ok res => exact ⟨conn, res, hr, by simp⟩

/-- Counterexample to C2: a users backend whose successful reply leaves `User`
unset makes the handler answer 200 with an object whose `user` is null and whose
`product` is set. -/
theorem getPurchaseDataHandler_half_populated :
    (getPurchaseDataHandler emptyReplyWorld purchase73).1 =
      { status := 200, contentType := "application/json",
        body := .json (.purchase
          { User := none, Product := some { Id := "3", Name := "Pen" } }) } := by
  rfl

/-- C2, amended. When every successful `GetUser` reply carries a user and every
successful `GetProduct` reply carries a product, the response of
`getPurchaseDataHandler` is either a 404 error in plain text or a 200 object in
which both `user` and `product` are set. -/
theorem getPurchaseDataHandler_complete (w : World U P CU CP) (r : Request)
    (hU : ∀ conn req res, w.GetUser conn req = .ok res → res.User ≠ none)
    (hP : ∀ conn req res, w.GetProduct conn req = .ok res → res.Product ≠ none) :
    ((getPurchaseDataHandler w r).1.status = 404 ∧
      ∃ msg, (getPurchaseDataHandler w r).1.body = .text msg) ∨
    ((getPurchaseDataHandler w r).1.status = 200 ∧
      ∃ user product, (getPurchaseDataHandler w r).1.body =
        .json (.purchase { User := some user, Product := some product })) := by
  cases hu : (fetchUser w (r.Vars "userId")).1.err with
  | some userErr =>
    left
    simp [getPurchaseDataHandler, respondPurchase, hu, httpError]
  | none =>
    cases hp : (fetchProduct w (r.Vars "productId")).1.err with
    | some productErr =>
      left
      simp [getPurchaseDataHandler, respondPurchase, hu, hp, httpError]
    | none =>
      right
      obtain ⟨cu, ru, hru, hvu⟩ := fetchUser_value w _ hu
      obtain ⟨cp, rp, hrp, hvp⟩ := fetchProduct_value w _ hp
      obtain ⟨user, hsu⟩ := Option.ne_none_iff_exists'.mp (hU cu _ ru hru)
      obtain ⟨product, hsp⟩ := Option.ne_none_iff_exists'.mp (hP cp _ rp hrp)
      refine ⟨by simp [getPurchaseDataHandler, respondPurchase, hu, hp, writeJSON],
        user, product, ?_⟩
      simp [getPurchaseDataHandler, respondPurchase, hu, hp, writeJSON, hvu, hvp, hsu, hsp]

/-- Witness of C2, amended: the healthy world's backends always reply with an
entity, and the response for user 7, product 3 carries both. -/
theorem getPurchaseDataHandler_complete_witness :
    ((getPurchaseDataHandler healthyWorld purchase73).1.status = 404 ∧
      ∃ msg, (getPurchaseDataHandler healthyWorld purchase73).1.body = .text msg) ∨
    ((getPurchaseDataHandler healthyWorld purchase73).1.status = 200 ∧
      ∃ user product, (getPurchaseDataHandler healthyWorld purchase73).1.body =
        .json (.purchase { User := some user, Product := some product })) :=
  getPurchaseDataHandler_complete healthyWorld purchase73
    (by intro conn req res h; injection h with h; subst h; simp)
    (by intro conn req res h; injection h with h; subst h; simp)

/-- A connection helper that fails leaves either the lookup alone in its trace
(resolve failed) or the lookup and one failed dial. -/
theorem connect_error (w : World U P CU CP) (k : Kind) (err : Error)
    (h : (connect w k).1 = .error err) :
    (discoverService w.registry k.serviceName = .error err ∧
      (connect w k).2 = [.lookup k.serviceName]) ∨
    (∃ address, discoverService w.registry k.serviceName = .ok address ∧
      w.dial k address = .error err ∧
      (connect w k).2 = [.lookup k.serviceName, .dialFailed k address]) := by
  cases k
  · simp only [connect, Kind.serviceName, getUsersServiceConnection] at h ⊢
    cases hd : discoverService w.registry "users-service" with
    | error e => simp_all
    | ok address =>
      cases hdial : w.dial .users address with
      | error e => simp_all
      | ok conn => simp_all
  · simp only [connect, Kind.serviceName, getProductsServiceConnection] at h ⊢
    cases hd : discoverService w.registry "products-service" with
    | error e => simp_all
    | ok address =>
      cases hdial : w.dial .products address with
      | error e => simp_all
      | ok conn => simp_all

/-- A connection helper that succeeds resolved an address, dialled it with
success and did nothing else. -/
theorem connect_ok (w : World U P CU CP) (k : Kind) (conn : Conn)
    (h : (connect w k).1 = .ok conn) :
    ∃ address, discoverService w.registry k.serviceName = .ok address ∧
      w.dial k address = .ok conn ∧
      (connect w k).2 = [.lookup k.serviceName, .opened k conn] := by
  cases k
  · simp only [connect, Kind.serviceName, getUsersServiceConnection] at h ⊢
    cases hd : discoverService w.registry "users-service" with
    | error e => simp_all
    | ok address =>
      cases hdial : w.dial .users address with
      | error e => simp_all
      | ok c => simp_all
  · simp only [connect, Kind.serviceName, getProductsServiceConnection] at h ⊢
    cases hd : discoverService w.registry "products-service" with
    | error e => simp_all
    | ok address =>
      cases hdial : w.dial .products address with
      | error e => simp_all
      | ok c => simp_all

/-- An entity handler whose connection helper failed answers 503 and writes
nothing but that response after the helper's events. -/
theorem run_of_connect_error (h : EntityHandler) (w : World U P CU CP) (r : Request)
    (err : Error) (hc : (connect w h.kind).1 = .error err) :
    h.run w r = (httpError ("Service discovery failed: " ++ err) 503,
      (connect w h.kind).2 ++ [.write 503]) := by
  cases h <;> simp only [EntityHandler.kind, connect] at hc ⊢
  · simp only [EntityHandler.run, createUserHandler]
    cases hg : getUsersServiceConnection w with
    | mk c t => cases c <;> simp_all
  · simp only [EntityHandler.run, getUserHandler]
    cases hg : getUsersServiceConnection w with
    | mk c t => cases c <;> simp_all
  · simp only [EntityHandler.run, createProductHandler]
    cases hg : getProductsServiceConnection w with
    | mk c t => cases c <;> simp_all
  · simp only [EntityHandler.run, getProductHandler]
    cases hg : getProductsServiceConnection w with
    | mk c t => cases c <;> simp_all

/-- The connection helper of a service fails with `err` when the registry call
fails with `err`, when the registry has no healthy instance (`err` is then the
not-found error), and when `grpc.Dial` returns `err` on the address of the first
instance. -/
theorem connect_of_failure (w : World U P CU CP) (k : Kind) (err : Error)
    (hfail : w.registry k.serviceName = .error err ∨
      (w.registry k.serviceName = .ok [] ∧
        err = "no healthy instances of " ++ k.serviceName ++ " found") ∨
      ∃ first rest, w.registry k.serviceName = .ok (first :: rest) ∧
        w.dial k (first.Service.Address ++ ":" ++ fmtD first.Service.Port) = .error err) :
    (connect w k).1 = .error err := by
  rcases hfail with hreg | ⟨hreg, rfl⟩ | ⟨first, rest, hreg, hdial⟩ <;> cases k <;>
    simp_all [connect, Kind.serviceName, getUsersServiceConnection,
      getProductsServiceConnection, discoverService]

/-- Counterexample to C4: the service resolves and the backend refuses every
connection. `grpc.Dial` returns a connection all the same, the handler invokes
the remote operation, and the answer is 500 for a Create handler and 404 for a
Get handler, not 503. -/
theorem entityHandler_refused_not_503 :
    discoverService refusedTransportWorld.registry "products-service" = .ok "10.0.0.5:9000" ∧
    (createProductHandler refusedTransportWorld postAnn).1 =
      { status := 500, contentType := "text/plain; charset=utf-8",
        body := .text "rpc error: code = Unavailable desc = connection refused\n" } ∧
    (createProductHandler refusedTransportWorld postAnn).2 =
      [.lookup "products-service", .opened .products 2, .call .CreateProduct 2, .write 500,
        .closed 2] ∧
    (getUserHandler refusedTransportWorld get42).1.status = 404 ∧
    calls (getUserHandler refusedTransportWorld get42).2 = [.GetUser] :=
  ⟨rfl, rfl, rfl, rfl, rfl⟩

/-- C4, amended. When resolving the service fails (the registry call fails, or
the registry has no healthy instance), or resolving succeeds and `grpc.Dial`
returns an error on the resolved address, each of the four entity handlers
answers 503 with the line "Service discovery failed: ERR", the response is the
last thing it does, it invokes no remote operation and holds no connection, and
when resolve failed it does not call `Dial`. -/
theorem entityHandler_unavailable (h : EntityHandler) (w : World U P CU CP) (r : Request)
    (err : Error)
    (hfail : w.registry h.kind.serviceName = .error err ∨
      (w.registry h.kind.serviceName = .ok [] ∧
        err = "no healthy instances of " ++ h.kind.serviceName ++ " found") ∨
      ∃ first rest, w.registry h.kind.serviceName = .ok (first :: rest) ∧
        w.dial h.kind (first.Service.Address ++ ":" ++ fmtD first.Service.Port)
          = .error err) :
    (h.run w r).1 =
      { status := 503, contentType := "text/plain; charset=utf-8",
        body := .text ("Service discovery failed: " ++ err ++ "\n") } ∧
    (h.run w r).2.getLast? = some (.write 503) ∧
    calls (h.run w r).2 = [] ∧
    opens (h.run w r).2 = [] ∧
    (((∃ e, w.registry h.kind.serviceName = .error e) ∨
        w.registry h.kind.serviceName = .ok []) →
      dials (h.run w r).2 = 0) := by
  have hc := connect_of_failure w h.kind err hfail
  rw [run_of_connect_error h w r err hc]
  rcases connect_error w h.kind err hc with ⟨hd, ht⟩ | ⟨address, hd, hdial, ht⟩
  · simp [ht, httpError, calls, opens, dials]
  · refine ⟨by simp [httpError], by simp, by simp [ht, calls], by simp [ht, opens], ?_⟩
    intro hreg
    exfalso
    rcases hreg with ⟨e, he⟩ | he <;> simp [discoverService, he] at hd

/-- Witness of C4, amended: with no healthy instance `getUserHandler` answers 503
after the lookup alone; with an address that `grpc.Dial` rejects
`createProductHandler` answers 503 after the lookup and the failed dial. -/
theorem entityHandler_unavailable_witness :
    emptyRegistryWorld.registry EntityHandler.getUser.kind.serviceName = .ok [] ∧
    (getUserHandler emptyRegistryWorld get42).1.status = 503 ∧
    calls (getUserHandler emptyRegistryWorld get42).2 = [] ∧
    dials (getUserHandler emptyRegistryWorld get42).2 = 0 ∧
    dialErrorWorld.registry EntityHandler.createProduct.kind.serviceName
      = .ok [⟨⟨"%zz", 9000⟩⟩] ∧
    dialErrorWorld.dial .products "%zz:9000" = .error "invalid URL escape" ∧
    (createProductHandler dialErrorWorld postAnn).1.status = 503 ∧
    calls (createProductHandler dialErrorWorld postAnn).2 = [] ∧
    (createProductHandler dialErrorWorld postAnn).2
      = [.lookup "products-service", .dialFailed .products "%zz:9000", .write 503] :=
  have h := entityHandler_unavailable .getUser emptyRegistryWorld get42
    "no healthy instances of users-service found" (Or.inr (Or.inl ⟨rfl, rfl⟩))
  have h2 := entityHandler_unavailable .createProduct dialErrorWorld postAnn
    "invalid URL escape" (Or.inr (Or.inr ⟨⟨⟨"%zz", 9000⟩⟩, [], rfl, rfl⟩))
  ⟨rfl, congrArg Response.status h.1, h.2.2.1, h.2.2.2.2 (Or.inr rfl),
    rfl, rfl, congrArg Response.status h2.1, h2.2.2.1, rfl⟩

/-- An entity handler whose connection helper succeeded invokes its remote
operation, writes one response and closes the connection, in this order. -/
theorem run_of_connect_ok (h : EntityHandler) (w : World U P CU CP) (r : Request)
    (conn : Conn) (hc : (connect w h.kind).1 = .ok conn) :
    ∃ status, (h.run w r).1.status = status ∧
      (h.run w r).2 = (connect w h.kind).2 ++ [.call h.op conn, .write status, .closed conn] := by
  cases h <;> simp only [EntityHandler.kind, EntityHandler.op, connect] at hc ⊢
  · simp only [EntityHandler.run, createUserHandler]
    cases hg : getUsersServiceConnection w with
    | mk c t =>
      cases c with
      | error e => simp_all
      | ok c =>
        cases hr : w.CreateUser c (w.decodeCreateUser r.Body) <;>
          simp_all [httpError, writeJSON]
  · simp only [EntityHandler.run, getUserHandler]
    cases hg : getUsersServiceConnection w with
    | mk c t =>
      cases c with
      | error e => simp_all
      | ok c =>
        cases hr : w.GetUser c { Id := r.Vars "id" } <;> simp_all [httpError, writeJSON]
  · simp only [EntityHandler.run, createProductHandler]
    cases hg : getProductsServiceConnection w with
    | mk c t =>
      cases c with
      | error e => simp_all
      | ok c =>
        cases hr : w.CreateProduct c (w.decodeCreateProduct r.Body) <;>
          simp_all [httpError, writeJSON]
  · simp only [EntityHandler.run, getProductHandler]
    cases hg : getProductsServiceConnection w with
    | mk c t =>
      cases c with
      | error e => simp_all
      | ok c =>
        cases hr : w.GetProduct c { Id := r.Vars "id" } <;> simp_all [httpError, writeJSON]

/-- C5. Once resolve and connect have succeeded with connection `conn`: a failed
remote call makes a Create handler answer 500 and a Get handler answer 404, the
body being the error's message as one line of plain text; a successful remote
call makes the handler answer 200 with content type `application/json` and the
JSON encoding of exactly the entity field of the backend's reply. -/
theorem entityHandler_remote (h : EntityHandler) (w : World U P CU CP) (r : Request)
    (conn : Conn) (hc : (connect w h.kind).1 = .ok conn) :
    match h with
    | .createUser =>
      (∀ err, w.CreateUser conn (w.decodeCreateUser r.Body) = .error err →
        (createUserHandler w r).1 =
          { status := 500, contentType := "text/plain; charset=utf-8",
            body := .text (err ++ "\n") }) ∧
      (∀ res, w.CreateUser conn (w.decodeCreateUser r.Body) = .ok res →
        (createUserHandler w r).1 =
          { status := 200, contentType := "application/json",
            body := .json (.user res.User) })
    | .getUser =>
      (∀ err, w.GetUser conn { Id := r.Vars "id" } = .error err →
        (getUserHandler w r).1 =
          { status := 404, contentType := "text/plain; charset=utf-8",
            body := .text (err ++ "\n") }) ∧
      (∀ res, w.GetUser conn { Id := r.Vars "id" } = .ok res →
        (getUserHandler w r).1 =
          { status := 200, contentType := "application/json",
            body := .json (.user res.User) })
    | .createProduct =>
      (∀ err, w.CreateProduct conn (w.decodeCreateProduct r.Body) = .error err →
        (createProductHandler w r).1 =
          { status := 500, contentType := "text/plain; charset=utf-8",
            body := .text (err ++ "\n") }) ∧
      (∀ res, w.CreateProduct conn (w.decodeCreateProduct r.Body) = .ok res →
        (createProductHandler w r).1 =
          { status := 200, contentType := "application/json",
            body := .json (.product res.Product) })
    | .getProduct =>
      (∀ err, w.GetProduct conn { Id := r.Vars "id" } = .error err →
        (getProductHandler w r).1 =
          { status := 404, contentType := "text/plain; charset=utf-8",
            body := .text (err ++ "\n") }) ∧
      (∀ res, w.GetProduct conn { Id := r.Vars "id" } = .ok res →
        (getProductHandler w r).1 =
          { status := 200, contentType := "application/json",
            body := .json (.product res.Product) }) := by
  cases h <;> simp only [EntityHandler.kind, connect] at hc ⊢
  · simp only [createUserHandler]
    cases hg : getUsersServiceConnection w with
    | mk c t =>
      cases c with
      | error e => simp_all
      | ok c =>
        have hcc : c = conn := by simp_all
        subst hcc
        constructor <;> intro x hx <;> simp [hx, httpError, writeJSON]
  · simp only [getUserHandler]
    cases hg : getUsersServiceConnection w with
    | mk c t =>
      cases c with
      | error e => simp_all
      | ok c =>
        have hcc : c = conn := by simp_all
        subst hcc
        constructor <;> intro x hx <;> simp [hx, httpError, writeJSON]
  · simp only [createProductHandler]
    cases hg : getProductsServiceConnection w with
    | mk c t =>
      cases c with
      | error e => simp_all
      | ok c =>
        have hcc : c = conn := by simp_all
        subst hcc
        constructor <;> intro x hx <;> simp [hx, httpError, writeJSON]
  · simp only [getProductHandler]
    cases hg : getProductsServiceConnection w with
    | mk c t =>
      cases c with
      | error e => simp_all
      | ok c =>
        have hcc : c = conn := by simp_all
        subst hcc
        constructor <;> intro x hx <;> simp [hx, httpError, writeJSON]

/-- Witness of C5: `POST /api/users` against a users backend that fails answers
500 with the backend's message. -/
theorem entityHandler_remote_witness :
    (connect failingBackendWorld EntityHandler.createUser.kind).1 = .ok 1 ∧
    (createUserHandler failingBackendWorld postAnn).1 =
      { status := 500, contentType := "text/plain; charset=utf-8",
        body := .text "rpc error: users\n" } :=
  ⟨rfl, (entityHandler_remote .createUser failingBackendWorld postAnn 1 rfl).1
    "rpc error: users" rfl⟩

/-- The user branch of the aggregation records the error of a failed
connection helper and does nothing more. -/
theorem fetchUser_of_connect_error (w : World U P CU CP) (userId : String) (err : Error)
    (hc : (connect w .users).1 = .error err) :
    fetchUser w userId = ({ value := none, err := some err }, (connect w .users).2) := by
  simp only [connect] at hc ⊢
  simp only [fetchUser]
  cases hg : getUsersServiceConnection w with
  | mk c t => cases c <;> simp_all

/-- The product branch of the aggregation records the error of a failed
connection helper and does nothing more. -/
theorem fetchProduct_of_connect_error (w : World U P CU CP) (productId : String)
    (err : Error) (hc : (connect w .products).1 = .error err) :
    fetchProduct w productId
      = ({ value := none, err := some err }, (connect w .products).2) := by
  simp only [connect] at hc ⊢
  simp only [fetchProduct]
  cases hg : getProductsServiceConnection w with
  | mk c t => cases c <;> simp_all

/-- The user branch of the aggregation, its connection open, invokes `GetUser`
and closes the connection. -/
theorem fetchUser_of_connect_ok (w : World U P CU CP) (userId : String) (conn : Conn)
    (hc : (connect w .users).1 = .ok conn) :
    (fetchUser w userId).2 = (connect w .users).2 ++ [.call .GetUser conn, .closed conn] := by
  simp only [connect] at hc ⊢
  simp only [fetchUser]
  cases hg : getUsersServiceConnection w with
  | mk c t =>
    cases c with
    | error e => simp_all
    | ok c => cases hr : w.GetUser c { Id := userId } <;> simp_all

/-- The product branch of the aggregation, its connection open, invokes
`GetProduct` and closes the connection. -/
theorem fetchProduct_of_connect_ok (w : World U P CU CP) (productId : String)
    (conn : Conn) (hc : (connect w .products).1 = .ok conn) :
    (fetchProduct w productId).2
      = (connect w .products).2 ++ [.call .GetProduct conn, .closed conn] := by
  simp only [connect] at hc ⊢
  simp only [fetchProduct]
  cases hg : getProductsServiceConnection w with
  | mk c t =>
    cases c with
    | error e => simp_all
    | ok c => cases hr : w.GetProduct c { Id := productId } <;> simp_all

/-- With no healthy instance of a service its connection helper fails with the
not-found error of `discoverService`. -/
theorem connect_of_empty (w : World U P CU CP) (k : Kind)
    (h0 : w.registry k.serviceName = .ok []) :
    (connect w k).1 = .error ("no healthy instances of " ++ k.serviceName ++ " found") := by
  cases k <;>
    simp_all [connect, Kind.serviceName, getUsersServiceConnection,
      getProductsServiceConnection, discoverService]

/-- Counterexample to C6: with no healthy instance of any service, resolve fails
and the aggregation handler answers 404, not 503. -/
theorem getPurchaseDataHandler_not_503 :
    emptyRegistryWorld.registry "users-service" = .ok [] ∧
    emptyRegistryWorld.registry "products-service" = .ok [] ∧
    (getPurchaseDataHandler emptyRegistryWorld purchase73).1.status = 404 ∧
    (getPurchaseDataHandler emptyRegistryWorld purchase73).1.status ≠ 503 := by
  refine ⟨rfl, rfl, rfl, ?_⟩
  decide

/-- C6, amended. When the registry has no healthy instance of a service,
`discoverService` fails for it with "no healthy instances of NAME found", each
entity handler of that service answers 503, and the aggregation handler, which
resolves both services, answers 404. -/
theorem zero_instances_status (w : World U P CU CP) (k : Kind)
    (h0 : w.registry k.serviceName = .ok []) :
    discoverService w.registry k.serviceName
      = .error ("no healthy instances of " ++ k.serviceName ++ " found") ∧
    (∀ h : EntityHandler, h.kind = k → ∀ r, (h.run w r).1.status = 503) ∧
    (∀ r, (getPurchaseDataHandler w r).1.status = 404) := by
  have hc := connect_of_empty w k h0
  refine ⟨by simp [discoverService, h0], ?_, ?_⟩
  · intro h hk r
    subst hk
    rw [run_of_connect_error h w r _ hc]
    rfl
  · intro r
    cases k with
    | users =>
      simp [getPurchaseDataHandler, respondPurchase, fetchUser_of_connect_error w _ _ hc,
        httpError]
    | products =>
      cases hu : (fetchUser w (r.Vars "userId")).1.err with
      | some userErr => simp [getPurchaseDataHandler, respondPurchase, hu, httpError]
      | none =>
        simp [getPurchaseDataHandler, respondPurchase, hu,
          fetchProduct_of_connect_error w _ _ hc, httpError]

/-- Witness of C6, amended: no healthy instance of `products-service`. -/
theorem zero_instances_status_witness :
    emptyRegistryWorld.registry Kind.products.serviceName = .ok [] ∧
    (getProductHandler emptyRegistryWorld get42).1.status = 503 ∧
    (getPurchaseDataHandler emptyRegistryWorld purchase73).1.status = 404 :=
  have h := zero_instances_status emptyRegistryWorld .products rfl
  ⟨rfl, h.2.1 .getProduct rfl get42, h.2.2 purchase73⟩

/-- The response of `getUserHandler` on the connection its helper returned. -/
theorem entityHandler_get_user (w : World U P CU CP) (r : Request) (conn : Conn)
    (hc : (connect w .users).1 = .ok conn) :
    (∀ err, w.GetUser conn { Id := r.Vars "id" } = .error err →
      (getUserHandler w r).1 = httpError err 404) ∧
    (∀ res, w.GetUser conn { Id := r.Vars "id" } = .ok res →
      (getUserHandler w r).1 = writeJSON (.user res.User)) := by
  simp only [connect] at hc
  simp only [getUserHandler]
  cases hg : getUsersServiceConnection w with
  | mk c t =>
    cases c with
    | error e => simp_all
    | ok c =>
      have hcc : c = conn := by simp_all
      subst hcc
      constructor <;> intro x hx <;> simp [hx]

/-- The response of `getProductHandler` on the connection its helper returned. -/
theorem entityHandler_get_product (w : World U P CU CP) (r : Request) (conn : Conn)
    (hc : (connect w .products).1 = .ok conn) :
    (∀ err, w.GetProduct conn { Id := r.Vars "id" } = .error err →
      (getProductHandler w r).1 = httpError err 404) ∧
    (∀ res, w.GetProduct conn { Id := r.Vars "id" } = .ok res →
      (getProductHandler w r).1 = writeJSON (.product res.Product)) := by
  simp only [connect] at hc
  simp only [getProductHandler]
  cases hg : getProductsServiceConnection w with
  | mk c t =>
    cases c with
    | error e => simp_all
    | ok c =>
      have hcc : c = conn := by simp_all
      subst hcc
      constructor <;> intro x hx <;> simp [hx]

/-- Counterexample to C7: `GET /api/users/42` against a backend that replies with
the user stored under `2` succeeds with status 200 and a body whose identifier
is `2`. -/
theorem getUserHandler_other_id :
    get42.Vars "id" = "42" ∧
    (getUserHandler otherIdWorld get42).1 =
      { status := 200, contentType := "application/json",
        body := .json (.user (some { Id := "2", Name := "Bob" })) } ∧
    (getProductHandler otherIdWorld get42).1 =
      { status := 200, contentType := "application/json",
        body := .json (.product (some { Id := "2", Name := "Ink" })) } :=
  ⟨rfl, rfl, rfl⟩

/-- C7, amended. A Get handler that answers 200 resolved its service, sent the
path identifier unchanged to the backend on the connection `grpc.Dial` returned,
and its body is exactly the entity field of that backend's reply; so, when every
entity that backend returns carries the identifier it was asked for (`idU`, `idP`
read the identifier of a user, of a product), the identifier in the body equals
the path identifier. -/
theorem getHandler_identifier (w : World U P CU CP) (r : Request)
    (idU : U → String) (idP : P → String) :
    ((getUserHandler w r).1.status = 200 →
      ∃ address conn res,
        discoverService w.registry "users-service" = .ok address ∧
        w.dial .users address = .ok conn ∧
        w.GetUser conn { Id := r.Vars "id" } = .ok res ∧
        (getUserHandler w r).1 = writeJSON (.user res.User) ∧
        ((∀ conn req res u, w.GetUser conn req = .ok res → res.User = some u →
            idU u = req.Id) →
          ∀ u, res.User = some u → idU u = r.Vars "id")) ∧
    ((getProductHandler w r).1.status = 200 →
      ∃ address conn res,
        discoverService w.registry "products-service" = .ok address ∧
        w.dial .products address = .ok conn ∧
        w.GetProduct conn { Id := r.Vars "id" } = .ok res ∧
        (getProductHandler w r).1 = writeJSON (.product res.Product) ∧
        ((∀ conn req res p, w.GetProduct conn req = .ok res → res.Product = some p →
            idP p = req.Id) →
          ∀ p, res.Product = some p → idP p = r.Vars "id")) := by
  constructor
  · cases hg : (connect w .users).1 with
    | error e =>
      have hrun := run_of_connect_error .getUser w r e hg
      simp only [EntityHandler.run] at hrun
      simp [hrun, httpError]
    | ok c =>
      obtain ⟨address, hd, hdial, _⟩ := connect_ok w .users c hg
      have hrem := entityHandler_get_user w r c hg
      cases hr : w.GetUser c { Id := r.Vars "id" } with
      | error e => simp [hrem.1 e hr, httpError]
      | ok res =>
        intro _
        exact ⟨address, c, res, hd, hdial, hr, hrem.2 res hr,
          fun hU u hu => hU c _ res u hr hu⟩
  · cases hg : (connect w .products).1 with
    | error e =>
      have hrun := run_of_connect_error .getProduct w r e hg
      simp only [EntityHandler.run] at hrun
      simp [hrun, httpError]
    | ok c =>
      obtain ⟨address, hd, hdial, _⟩ := connect_ok w .products c hg
      have hrem := entityHandler_get_product w r c hg
      cases hr : w.GetProduct c { Id := r.Vars "id" } with
      | error e => simp [hrem.1 e hr, httpError]
      | ok res =>
        intro _
        exact ⟨address, c, res, hd, hdial, hr, hrem.2 res hr,
          fun hP p hp => hP c _ res p hr hp⟩

/-- Witness of C7, amended: the healthy world's backends return the entity of
the identifier asked for, and `GET /api/users/42` answers with user `42`; in a
world whose backends answer with the entity stored under `2`, the body of
`GET /api/products/42` is still exactly the backend's reply. -/
theorem getHandler_identifier_witness :
    (getUserHandler healthyWorld get42).1.status = 200 ∧
    (∃ address conn res,
      discoverService healthyWorld.registry "users-service" = .ok address ∧
      healthyWorld.dial .users address = .ok conn ∧
      healthyWorld.GetUser conn { Id := get42.Vars "id" } = .ok res ∧
      (getUserHandler healthyWorld get42).1 = writeJSON (.user res.User) ∧
      ∀ u, res.User = some u → Entity.Id u = get42.Vars "id") ∧
    (getProductHandler otherIdWorld get42).1.status = 200 ∧
    (∃ address conn res,
      discoverService otherIdWorld.registry "products-service" = .ok address ∧
      otherIdWorld.dial .products address = .ok conn ∧
      otherIdWorld.GetProduct conn { Id := get42.Vars "id" } = .ok res ∧
      (getProductHandler otherIdWorld get42).1 = writeJSON (.product res.Product)) := by
  refine ⟨rfl, ?_, rfl, ?_⟩
  · obtain ⟨address, conn, res, h1, h2, h3, h4, h5⟩ :=
      (getHandler_identifier healthyWorld get42 Entity.Id Entity.Id).1 rfl
    refine ⟨address, conn, res, h1, h2, h3, h4, h5 ?_⟩
    intro conn req res u h hu
    injection h with h
    subst h
    injection hu with hu
    subst hu
    rfl
  · obtain ⟨address, conn, res, h1, h2, h3, h4, _⟩ :=
      (getHandler_identifier otherIdWorld get42 Entity.Id Entity.Id).2 rfl
    exact ⟨address, conn, res, h1, h2, h3, h4⟩

/-- The connections opened by a concatenation of traces. -/
theorem opens_append (a b : List Event) : opens (a ++ b) = opens a ++ opens b := by
  induction a with
  | nil => rfl
  | cons e t ih => cases e <;> simp [opens, ih]

/-- The connections closed by a concatenation of traces. -/
theorem closes_append (a b : List Event) : closes (a ++ b) = closes a ++ closes b := by
  induction a with
  | nil => rfl
  | cons e t ih => cases e <;> simp [closes, ih]

/-- A run that obeys the release discipline closes exactly what it opened. -/
theorem ReleasedOnce.closes_eq {c : Except Error Conn} {t : List Event}
    (h : ReleasedOnce c t) : closes t = opens t := by
  cases c with
  | error e => simp [ReleasedOnce] at h; simp [h.1, h.2]
  | ok conn => simp [ReleasedOnce] at h; simp [h.1, h.2.1]

/-- C8. In every run of each of the four entity handlers and of each of the two
aggregation branches, a connection that was opened is the only one opened, is
closed once and by the last event of the run, on the success path and on the
remote-error path alike; when resolve or connect failed nothing is opened and
nothing is closed. The whole aggregation run closes what it opened. -/
theorem connections_released_once (w : World U P CU CP) (r : Request) :
    (∀ h : EntityHandler, ReleasedOnce (connect w h.kind).1 (h.run w r).2) ∧
    ReleasedOnce (connect w .users).1 (fetchUser w (r.Vars "userId")).2 ∧
    ReleasedOnce (connect w .products).1 (fetchProduct w (r.Vars "productId")).2 ∧
    closes (getPurchaseDataHandler w r).2 = opens (getPurchaseDataHandler w r).2 := by
  have hfu : ReleasedOnce (connect w .users).1 (fetchUser w (r.Vars "userId")).2 := by
    cases hc : (connect w .users).1 with
    | error e =>
      rcases connect_error w .users e hc with ⟨_, ht⟩ | ⟨a, _, _, ht⟩ <;>
        simp [ReleasedOnce, fetchUser_of_connect_error w _ e hc, ht, opens, closes]
    | ok conn =>
      obtain ⟨a, _, _, ht⟩ := connect_ok w .users conn hc
      simp [ReleasedOnce, fetchUser_of_connect_ok w _ conn hc, ht, opens, closes]
  have hfp : ReleasedOnce (connect w .products).1
      (fetchProduct w (r.Vars "productId")).2 := by
    cases hc : (connect w .products).1 with
    | error e =>
      rcases connect_error w .products e hc with ⟨_, ht⟩ | ⟨a, _, _, ht⟩ <;>
        simp [ReleasedOnce, fetchProduct_of_connect_error w _ e hc, ht, opens, closes]
    | ok conn =>
      obtain ⟨a, _, _, ht⟩ := connect_ok w .products conn hc
      simp [ReleasedOnce, fetchProduct_of_connect_ok w _ conn hc, ht, opens, closes]
  refine ⟨?_, hfu, hfp, ?_⟩
  · intro h
    cases hc : (connect w h.kind).1 with
    | error e =>
      rw [run_of_connect_error h w r e hc]
      rcases connect_error w h.kind e hc with ⟨_, ht⟩ | ⟨a, _, _, ht⟩ <;>
        simp [ReleasedOnce, ht, opens, closes]
    | ok conn =>
      obtain ⟨status, _, hrun⟩ := run_of_connect_ok h w r conn hc
      obtain ⟨a, _, _, ht⟩ := connect_ok w h.kind conn hc
      simp [ReleasedOnce, hrun, ht, opens, closes]
  · simp [getPurchaseDataHandler, opens_append, closes_append, hfu.closes_eq, hfp.closes_eq,
      opens, closes]

/-- Witness of C8: `GET /api/users/42` in the healthy world opens connection 1
and closes it last, after the response; with a failing backend the aggregation's
user branch still closes the connection it opened; with no healthy instance
nothing is opened or closed. -/
theorem connections_released_once_witness :
    (getUserHandler healthyWorld get42).2
      = [.lookup "users-service", .opened .users 1, .call .GetUser 1, .write 200, .closed 1] ∧
    ReleasedOnce (.ok 1) (getUserHandler healthyWorld get42).2 ∧
    (fetchUser failingBackendWorld "7").2
      = [.lookup "users-service", .opened .users 1, .call .GetUser 1, .closed 1] ∧
    ReleasedOnce (.ok 1) (fetchUser failingBackendWorld "7").2 ∧
    closes (getPurchaseDataHandler emptyRegistryWorld purchase73).2 = [] :=
  ⟨rfl, (connections_released_once healthyWorld get42).1 .getUser, rfl,
    (connections_released_once failingBackendWorld purchase73).2.1,
    ((connections_released_once emptyRegistryWorld purchase73).2.2.2).trans rfl⟩

/-- Every action of the user goroutine keeps its invariant. -/
theorem UserInv_step (w : World U P CU CP) (userId : String) (b : BranchState U)
    (h : UserInv w userId b) : UserInv w userId (stepUser w userId b) := by
  rcases b with ⟨pc, slot, trace⟩
  cases pc with
  | idle => simpa [stepUser] using h
  | start =>
    simp only [UserInv] at h
    obtain ⟨hs, ht⟩ := h
    subst hs ht
    simp only [stepUser]
    cases hd : discoverService w.registry "users-service" with
    | error e => simp [UserInv, fetchUser, getUsersServiceConnection, hd]
    | ok address => simp [UserInv, hd]
  | resolved address =>
    simp only [UserInv] at h
    obtain ⟨hd, hs, ht⟩ := h
    subst hs ht
    simp only [stepUser]
    cases hdial : w.dial .users address with
    | error e => simp [UserInv, fetchUser, getUsersServiceConnection, hd, hdial]
    | ok conn => simp [UserInv, getUsersServiceConnection, hd, hdial]
  | connected conn =>
    simp only [UserInv] at h
    obtain ⟨hc, hs⟩ := h
    subst hs
    simp only [stepUser]
    cases hr : w.GetUser conn { Id := userId } with
    | error e => simp [UserInv, fetchUser, hc, hr]
    | ok res => simp [UserInv, fetchUser, hc, hr]
  | closing conn =>
    simp only [UserInv] at h
    simp [UserInv, stepUser, h]
  | exiting => simpa [stepUser] using h
  | done => simpa [stepUser] using h

/-- Every action of the product goroutine keeps its invariant. -/
theorem ProductInv_step (w : World U P CU CP) (productId : String) (b : BranchState P)
    (h : ProductInv w productId b) : ProductInv w productId (stepProduct w productId b) := by
  rcases b with ⟨pc, slot, trace⟩
  cases pc with
  | idle => simpa [stepProduct] using h
  | start =>
    simp only [ProductInv] at h
    obtain ⟨hs, ht⟩ := h
    subst hs ht
    simp only [stepProduct]
    cases hd : discoverService w.registry "products-service" with
    | error e => simp [ProductInv, fetchProduct, getProductsServiceConnection, hd]
    | ok address => simp [ProductInv, hd]
  | resolved address =>
    simp only [ProductInv] at h
    obtain ⟨hd, hs, ht⟩ := h
    subst hs ht
    simp only [stepProduct]
    cases hdial : w.dial .products address with
    | error e => simp [ProductInv, fetchProduct, getProductsServiceConnection, hd, hdial]
    | ok conn => simp [ProductInv, getProductsServiceConnection, hd, hdial]
  | connected conn =>
    simp only [ProductInv] at h
    obtain ⟨hc, hs⟩ := h
    subst hs
    simp only [stepProduct]
    cases hr : w.GetProduct conn { Id := productId } with
    | error e => simp [ProductInv, fetchProduct, hc, hr]
    | ok res => simp [ProductInv, fetchProduct, hc, hr]
  | closing conn =>
    simp only [ProductInv] at h
    simp [ProductInv, stepProduct, h]
  | exiting => simpa [stepProduct] using h
  | done => simpa [stepProduct] using h

/-- An action of the user goroutine between its start and its `wg.Done()` leaves
it started and not returned, with fewer steps left. -/
theorem stepUser_pc (w : World U P CU CP) (userId : String) (b : BranchState U)
    (h1 : b.pc ≠ .idle) (h2 : b.pc ≠ .exiting) (h3 : b.pc ≠ .done) :
    (stepUser w userId b).pc ≠ .idle ∧ (stepUser w userId b).pc ≠ .done ∧
    (stepUser w userId b).pc.left < b.pc.left := by
  rcases b with ⟨pc, slot, trace⟩
  cases pc with
  | idle => simp at h1
  | start =>
    simp only [stepUser]
    cases discoverService w.registry "users-service" <;> simp [BranchPc.left]
  | resolved address =>
    simp only [stepUser]
    cases w.dial .users address <;> simp [BranchPc.left]
  | connected conn =>
    simp only [stepUser]
    cases w.GetUser conn { Id := userId } <;> simp [BranchPc.left]
  | closing conn => simp [stepUser, BranchPc.left]
  | exiting => simp at h2
  | done => simp at h3

/-- An action of the product goroutine between its start and its `wg.Done()`
leaves it started and not returned, with fewer steps left. -/
theorem stepProduct_pc (w : World U P CU CP) (productId : String) (b : BranchState P)
    (h1 : b.pc ≠ .idle) (h2 : b.pc ≠ .exiting) (h3 : b.pc ≠ .done) :
    (stepProduct w productId b).pc ≠ .idle ∧ (stepProduct w productId b).pc ≠ .done ∧
    (stepProduct w productId b).pc.left < b.pc.left := by
  rcases b with ⟨pc, slot, trace⟩
  cases pc with
  | idle => simp at h1
  | start =>
    simp only [stepProduct]
    cases discoverService w.registry "products-service" <;> simp [BranchPc.left]
  | resolved address =>
    simp only [stepProduct]
    cases w.dial .products address <;> simp [BranchPc.left]
  | connected conn =>
    simp only [stepProduct]
    cases w.GetProduct conn { Id := productId } <;> simp [BranchPc.left]
  | closing conn => simp [stepProduct, BranchPc.left]
  | exiting => simp at h2
  | done => simp at h3

/-- The steps of the user thread, by program point. -/
theorem step_user_cases (w : World U P CU CP) (r : Request) (s s' : AggState U P)
    (hs : step w r .user s = some s') :
    (s.user.pc = .exiting ∧ s' = { s with wg := s.wg - 1, user := { s.user with pc := .done } }) ∨
    (s.user.pc ≠ .idle ∧ s.user.pc ≠ .exiting ∧ s.user.pc ≠ .done ∧
      s' = { s with user := stepUser w (r.Vars "userId") s.user }) := by
  simp only [step] at hs
  split at hs <;> simp_all

/-- The steps of the product thread, by program point. -/
theorem step_product_cases (w : World U P CU CP) (r : Request) (s s' : AggState U P)
    (hs : step w r .product s = some s') :
    (s.product.pc = .exiting ∧
      s' = { s with wg := s.wg - 1, product := { s.product with pc := .done } }) ∨
    (s.product.pc ≠ .idle ∧ s.product.pc ≠ .exiting ∧ s.product.pc ≠ .done ∧
      s' = { s with product := stepProduct w (r.Vars "productId") s.product }) := by
  simp only [step] at hs
  split at hs <;> simp_all

/-- The invariant holds on entry to the handler. -/
theorem AggInv_init (w : World U P CU CP) (r : Request) : AggInv w r AggState.init := by
  simp [AggInv, AggState.init, UserInv, ProductInv]

/-- Every step of every thread keeps the invariant. -/
theorem AggInv_step (w : World U P CU CP) (r : Request) (t : Thread) (s s' : AggState U P)
    (h : AggInv w r s) (hs : step w r t s = some s') : AggInv w r s' := by
  obtain ⟨hu, hp, hm⟩ := h
  cases t with
  | main =>
    rcases s with ⟨m, wg, ⟨upc, uslot, utr⟩, ⟨ppc, pslot, ptr⟩, resp⟩
    cases m with
    | entry =>
      simp only [step, Option.some.injEq] at hs
      subst hs
      simp only at hm
      obtain ⟨h1, h2, h3, h4⟩ := hm
      subst h1 h2 h3 h4
      exact ⟨hu, hp, by simp⟩
    | added =>
      simp only [step, Option.some.injEq] at hs
      subst hs
      simp only at hm
      obtain ⟨h1, h2, h3, h4⟩ := hm
      subst h1 h2 h3 h4
      refine ⟨by simpa [UserInv] using hu, hp, ?_⟩
      simp [AggState.pending]
    | spawnedUser =>
      simp only [step, Option.some.injEq] at hs
      subst hs
      simp only at hm
      obtain ⟨h1, h2, h3, h4⟩ := hm
      subst h3 h4
      refine ⟨hu, by simpa [ProductInv] using hp, ?_⟩
      simp_all [AggState.pending]
    | waiting =>
      simp only [step] at hs
      split at hs
      · rename_i h0
        simp only [Option.some.injEq] at hs
        subst hs
        simp only at hm h0
        obtain ⟨h1, h2, h3, h4⟩ := hm
        refine ⟨hu, hp, ?_⟩
        simp only [AggState.pending] at h1
        have hud : upc = .done := by
          by_contra hne
          simp [hne] at h1
          split at h1 <;> omega
        have hpd : ppc = .done := by
          by_contra hne
          simp [hne] at h1
          split at h1 <;> omega
        simp [hud, hpd, h4]
      · simp at hs
    | joined =>
      simp only [step, Option.some.injEq] at hs
      subst hs
      simp only at hm
      exact ⟨hu, hp, by simp [hm.1, hm.2.1]⟩
    | returned => simp [step] at hs
  | user =>
    rcases step_user_cases w r s s' hs with ⟨hpc, rfl⟩ | ⟨h1, h2, h3, rfl⟩
    · rcases s with ⟨m, wg, ⟨upc, uslot, utr⟩, ⟨ppc, pslot, ptr⟩, resp⟩
      simp only at hpc
      subst hpc
      refine ⟨by simpa [UserInv] using hu, hp, ?_⟩
      cases m <;> simp_all [AggState.pending]
    · have hpc := stepUser_pc w (r.Vars "userId") s.user h1 h2 h3
      refine ⟨UserInv_step w _ _ hu, hp, ?_⟩
      rcases s with ⟨m, wg, ⟨upc, uslot, utr⟩, ⟨ppc, pslot, ptr⟩, resp⟩
      cases m <;> simp_all [AggState.pending]
  | product =>
    rcases step_product_cases w r s s' hs with ⟨hpc, rfl⟩ | ⟨h1, h2, h3, rfl⟩
    · rcases s with ⟨m, wg, ⟨upc, uslot, utr⟩, ⟨ppc, pslot, ptr⟩, resp⟩
      simp only at hpc
      subst hpc
      refine ⟨hu, by simpa [ProductInv] using hp, ?_⟩
      cases m <;> simp_all [AggState.pending]
    · have hpc := stepProduct_pc w (r.Vars "productId") s.product h1 h2 h3
      refine ⟨hu, ProductInv_step w _ _ hp, ?_⟩
      rcases s with ⟨m, wg, ⟨upc, uslot, utr⟩, ⟨ppc, pslot, ptr⟩, resp⟩
      cases m <;> simp_all [AggState.pending]

/-- The invariant holds after every schedule. -/
theorem AggInv_run (w : World U P CU CP) (r : Request) (sched : List Thread) :
    ∀ s : AggState U P, AggInv w r s → AggInv w r (run w r sched s) := by
  induction sched with
  | nil => intro s h; exact h
  | cons t rest ih =>
    intro s h
    simp only [run]
    cases hs : step w r t s with
    | none => exact ih s h
    | some s' => exact ih s' (AggInv_step w r t s s' h hs)

/-- Running two schedules one after the other. -/
theorem run_append (w : World U P CU CP) (r : Request) (a b : List Thread) :
    ∀ s : AggState U P, run w r (a ++ b) s = run w r b (run w r a s) := by
  induction a with
  | nil => intro s; rfl
  | cons t rest ih =>
    intro s
    simp only [List.cons_append, run]
    cases step w r t s <;> exact ih _

/-- Every step from a state that satisfies the invariant uses up at least one
of the steps left. -/
theorem step_left (w : World U P CU CP) (r : Request) (t : Thread) (s s' : AggState U P)
    (h : AggInv w r s) (hs : step w r t s = some s') : s'.left < s.left := by
  cases t with
  | main =>
    obtain ⟨_, _, hm⟩ := h
    rcases s with ⟨m, wg, ⟨upc, uslot, utr⟩, ⟨ppc, pslot, ptr⟩, resp⟩
    cases m <;> simp only [step] at hs
    · simp only [Option.some.injEq] at hs; subst hs; simp [AggState.left, MainPc.left]
    · simp only [Option.some.injEq] at hs; subst hs
      simp only at hm
      simp [AggState.left, MainPc.left, BranchPc.left, hm.2.1]
    · simp only [Option.some.injEq] at hs; subst hs
      simp only at hm
      simp [AggState.left, MainPc.left, BranchPc.left, hm.2.2.1]
    · split at hs
      · simp only [Option.some.injEq] at hs; subst hs; simp [AggState.left, MainPc.left]
      · simp at hs
    · simp only [Option.some.injEq] at hs; subst hs; simp [AggState.left, MainPc.left]
    · simp at hs
  | user =>
    rcases step_user_cases w r s s' hs with ⟨hpc, rfl⟩ | ⟨h1, h2, h3, rfl⟩
    · simp [AggState.left, hpc, BranchPc.left]
    · have hpc := stepUser_pc w (r.Vars "userId") s.user h1 h2 h3
      simp only [AggState.left]
      omega
  | product =>
    rcases step_product_cases w r s s' hs with ⟨hpc, rfl⟩ | ⟨h1, h2, h3, rfl⟩
    · simp [AggState.left, hpc, BranchPc.left]
    · have hpc := stepProduct_pc w (r.Vars "productId") s.product h1 h2 h3
      simp only [AggState.left]
      omega

/-- A goroutine that is started and has not returned can take a step. -/
theorem user_enabled (w : World U P CU CP) (r : Request) (s : AggState U P)
    (h1 : s.user.pc ≠ .idle) (h2 : s.user.pc ≠ .done) :
    ∃ s', step w r .user s = some s' := by
  rcases s with ⟨m, wg, ⟨upc, uslot, utr⟩, p, resp⟩
  cases upc <;> simp_all [step]

/-- A product goroutine that is started and has not returned can take a step. -/
theorem product_enabled (w : World U P CU CP) (r : Request) (s : AggState U P)
    (h1 : s.product.pc ≠ .idle) (h2 : s.product.pc ≠ .done) :
    ∃ s', step w r .product s = some s' := by
  rcases s with ⟨m, wg, u, ⟨ppc, pslot, ptr⟩, resp⟩
  cases ppc <;> simp_all [step]

/-- Until the handler has returned some thread can take a step. -/
theorem progress (w : World U P CU CP) (r : Request) (s : AggState U P)
    (h : AggInv w r s) (hm : s.main ≠ .returned) : ∃ t s', step w r t s = some s' := by
  obtain ⟨_, _, hinv⟩ := h
  cases hmain : s.main with
  | entry => exact ⟨.main, by simp [step, hmain]⟩
  | added => exact ⟨.main, by simp [step, hmain]⟩
  | spawnedUser => exact ⟨.main, by simp [step, hmain]⟩
  | joined => exact ⟨.main, by simp [step, hmain]⟩
  | returned => exact absurd hmain hm
  | waiting =>
    rw [hmain] at hinv
    obtain ⟨hwg, hu, hp, _⟩ := hinv
    by_cases h0 : s.wg = 0
    · exact ⟨.main, by simp [step, hmain, h0]⟩
    · by_cases hud : s.user.pc = .done
      · have hpd : s.product.pc ≠ .done := by
          intro hpd
          apply h0
          simp [hwg, AggState.pending, hud, hpd]
        obtain ⟨s', hs'⟩ := product_enabled w r s hp hpd
        exact ⟨.product, s', hs'⟩
      · obtain ⟨s', hs'⟩ := user_enabled w r s hu hud
        exact ⟨.user, s', hs'⟩

/-- From every state that satisfies the invariant some schedule makes the
handler return. -/
theorem completes (w : World U P CU CP) (r : Request) :
    ∀ (n : Nat) (s : AggState U P), s.left ≤ n → AggInv w r s →
      ∃ rest, (run w r rest s).main = .returned := by
  intro n
  induction n with
  | zero =>
    intro s hn _
    refine ⟨[], ?_⟩
    rcases s with ⟨m, wg, u, p, resp⟩
    cases m <;> simp_all [AggState.left, MainPc.left, run]
  | succ n ih =>
    intro s hn h
    by_cases hm : s.main = .returned
    · exact ⟨[], by simpa [run] using hm⟩
    · obtain ⟨t, s', hs'⟩ := progress w r s h hm
      have hlt := step_left w r t s s' h hs'
      obtain ⟨rest, hrest⟩ := ih s' (by omega) (AggInv_step w r t s s' h hs')
      exact ⟨t :: rest, by simpa [run, hs'] using hrest⟩

/-- A user goroutine that has returned left the outcome and the events of its
run in isolation. -/
theorem UserInv_done (w : World U P CU CP) (userId : String) (b : BranchState U)
    (h : UserInv w userId b) (hd : b.pc = .done) : (b.slot, b.trace) = fetchUser w userId := by
  rcases b with ⟨pc, slot, trace⟩
  simp only at hd
  subst hd
  simpa [UserInv] using h.symm

/-- A product goroutine that has returned left the outcome and the events of its
run in isolation. -/
theorem ProductInv_done (w : World U P CU CP) (productId : String) (b : BranchState P)
    (h : ProductInv w productId b) (hd : b.pc = .done) :
    (b.slot, b.trace) = fetchProduct w productId := by
  rcases b with ⟨pc, slot, trace⟩
  simp only at hd
  subst hd
  simpa [ProductInv] using h.symm

/-- A response is written only by the handler's last step. -/
theorem AggInv_response (w : World U P CU CP) (r : Request) (s : AggState U P)
    (h : AggInv w r s) (resp : Response U P) (hr : s.response = some resp) :
    s.main = .returned := by
  obtain ⟨_, _, hm⟩ := h
  cases hmain : s.main <;> rw [hmain] at hm <;> simp_all

/-- When the handler has returned both goroutines have returned and the
response is the one selected from their outcomes in isolation. -/
theorem AggInv_returned (w : World U P CU CP) (r : Request) (s : AggState U P)
    (h : AggInv w r s) (hmain : s.main = .returned) :
    s.user.pc = .done ∧ s.product.pc = .done ∧
    s.response = some (getPurchaseDataHandler w r).1 := by
  obtain ⟨hu, hp, hm⟩ := h
  rw [hmain] at hm
  obtain ⟨hud, hpd, hresp⟩ := hm
  have h1 := UserInv_done w _ _ hu hud
  have h2 := ProductInv_done w _ _ hp hpd
  refine ⟨hud, hpd, ?_⟩
  rw [hresp]
  simp only [getPurchaseDataHandler, ← h1, ← h2]

/-- No state has more than fifteen steps left. -/
theorem left_le (s : AggState U P) : s.left ≤ 15 := by
  rcases s with ⟨m, wg, ⟨upc, uslot, utr⟩, ⟨ppc, pslot, ptr⟩, resp⟩
  cases m <;> cases upc <;> cases ppc <;> simp [AggState.left, MainPc.left, BranchPc.left]

/-- C9. After every schedule of the three threads of `getPurchaseDataHandler`:
a response has been written only if both goroutines have returned, and it is
the response selected from their two outcomes; a goroutine that has returned
performed its whole run in isolation (resolve and, when that succeeded, connect,
remote call and close) and left that run's outcome, whatever the other goroutine
did; until the handler has returned some thread can still move, every step uses
up one of at most fifteen steps, and some continuation of the schedule makes
the handler return. -/
theorem getPurchaseDataHandler_join (w : World U P CU CP) (r : Request)
    (sched : List Thread) :
    (∀ resp, (run w r sched AggState.init).response = some resp →
      (run w r sched AggState.init).user.pc = .done ∧
      (run w r sched AggState.init).product.pc = .done ∧
      resp = (getPurchaseDataHandler w r).1) ∧
    ((run w r sched AggState.init).user.pc = .done →
      ((run w r sched AggState.init).user.slot, (run w r sched AggState.init).user.trace)
        = fetchUser w (r.Vars "userId")) ∧
    ((run w r sched AggState.init).product.pc = .done →
      ((run w r sched AggState.init).product.slot,
        (run w r sched AggState.init).product.trace)
        = fetchProduct w (r.Vars "productId")) ∧
    ((run w r sched AggState.init).main ≠ .returned →
      ∃ t s', step w r t (run w r sched AggState.init) = some s') ∧
    (∀ t s', step w r t (run w r sched AggState.init) = some s' →
      s'.left < (run w r sched AggState.init).left) ∧
    (run w r sched AggState.init).left ≤ 15 ∧
    (∃ rest, (run w r (sched ++ rest) AggState.init).main = .returned ∧
      (run w r (sched ++ rest) AggState.init).response
        = some (getPurchaseDataHandler w r).1) := by
  have hinv := AggInv_run w r sched _ (AggInv_init w r)
  refine ⟨?_, ?_, ?_, ?_, ?_, left_le _, ?_⟩
  · intro resp hresp
    have hret := AggInv_returned w r _ hinv (AggInv_response w r _ hinv resp hresp)
    refine ⟨hret.1, hret.2.1, ?_⟩
    rw [hret.2.2] at hresp
    exact (Option.some.inj hresp).symm
  · exact UserInv_done w _ _ hinv.1
  · exact ProductInv_done w _ _ hinv.2.1
  · exact progress w r _ hinv
  · intro t s' hs'
    exact step_left w r t _ s' hinv hs'
  · obtain ⟨rest, hrest⟩ := completes w r _ _ (le_refl _) hinv
    refine ⟨rest, ?_⟩
    rw [run_append]
    exact ⟨hrest, (AggInv_returned w r _ (AggInv_run w r rest _ hinv) hrest).2.2⟩

/-- Witness of C9. With no healthy instance of `products-service` and the
product goroutine scheduled first, that goroutine has failed and returned while
the user goroutine has not started its run: the handler stays at `wg.Wait()`
with no response written; after the user goroutine has run in full the handler
answers with the product branch's error. -/
theorem getPurchaseDataHandler_join_witness :
    (run noProductsWorld purchase73 productFirst AggState.init).product.pc = .done ∧
    (run noProductsWorld purchase73 productFirst AggState.init).product.slot.err
      = some "no healthy instances of products-service found" ∧
    (run noProductsWorld purchase73 productFirst AggState.init).user.pc = .start ∧
    (run noProductsWorld purchase73 productFirst AggState.init).main = .waiting ∧
    (run noProductsWorld purchase73 productFirst AggState.init).response = none ∧
    (run noProductsWorld purchase73 (productFirst ++ userThenMain) AggState.init).user.trace
      = [.lookup "users-service", .opened .users 1, .call .GetUser 1, .closed 1] ∧
    (∀ resp,
      (run noProductsWorld purchase73 (productFirst ++ userThenMain) AggState.init).response
        = some resp →
      resp = (getPurchaseDataHandler noProductsWorld purchase73).1) ∧
    (run noProductsWorld purchase73 (productFirst ++ userThenMain) AggState.init).response
      = some { status := 404, contentType := "text/plain; charset=utf-8",
               body := .text
                 "Failed to get product data: no healthy instances of products-service found\n" } :=
  ⟨rfl, rfl, rfl, rfl, rfl, rfl,
    fun resp h => ((getPurchaseDataHandler_join noProductsWorld purchase73
      (productFirst ++ userThenMain)).1 resp h).2.2, rfl⟩

end Theorems

end Gateway

namespace OrderService

open Gateway (Error fmtU)

section Theorems

variable {Price : Type}

/-- The loop of `CreateOrder` hands nothing to the database. -/
theorem creates_menuLoop (w : World Price) (items : List Item) :
    ∀ acc, creates (menuLoop w items acc).2 = [] := by
  induction items with
  | nil => intro acc; rfl
  | cons item rest ih =>
    intro acc
    simp only [menuLoop]
    cases hg : w.httpGet (menuURL item.MenuItemID) with
    | error e => simp [creates]
    | ok menuResp =>
      by_cases hs : menuResp.StatusCode = 200
      · simp [hs, creates, ih]
      · simp [hs, creates]

/-- The loop of `CreateOrder` completes exactly when every item's menu lookup
replied 200, and it then appends one snapshot per item, in order. -/
theorem menuLoop_some (w : World Price) (items : List Item) :
    ∀ acc out, (menuLoop w items acc).1 = some out →
      (∀ item ∈ items, Replied200 w (menuURL item.MenuItemID)) ∧
      ∃ new, out = acc ++ new ∧ List.Forall₂ (Snapshots w) items new := by
  induction items with
  | nil =>
    intro acc out h
    simp only [menuLoop, Option.some.injEq] at h
    exact ⟨by simp, [], by simp [h], List.Forall₂.nil⟩
  | cons item rest ih =>
    intro acc out h
    simp only [menuLoop] at h
    cases hg : w.httpGet (menuURL item.MenuItemID) with
    | error e => simp [hg] at h
    | ok menuResp =>
      by_cases hs : menuResp.StatusCode = 200
      · simp only [hg, hs, ne_eq, not_true_eq_false, if_false] at h
        obtain ⟨hall, new, hout, hnew⟩ := ih _ out h
        refine ⟨?_,
          (⟨item.MenuItemID, item.Quantity, w.decodePrice menuResp.Body⟩ : OrderItem Price)
            :: new,
          by simp [hout], List.Forall₂.cons ?_ hnew⟩
        · intro it hit
          rcases List.mem_cons.mp hit with rfl | hit
          · exact ⟨menuResp, hg, hs⟩
          · exact hall it hit
        · exact ⟨rfl, rfl, menuResp, hg, hs, rfl⟩
      · simp [hg, hs] at h

/-- The loop of `CreateOrder` leaves the handler exactly when some item's menu
lookup did not reply 200. -/
theorem menuLoop_none (w : World Price) (items : List Item) :
    ∀ acc, (menuLoop w items acc).1 = none ↔
      ∃ item ∈ items, ¬ Replied200 w (menuURL item.MenuItemID) := by
  induction items with
  | nil => intro acc; simp [menuLoop]
  | cons item rest ih =>
    intro acc
    simp only [menuLoop]
    cases hg : w.httpGet (menuURL item.MenuItemID) with
    | error e => simp [Replied200, hg]
    | ok menuResp =>
      by_cases hs : menuResp.StatusCode = 200
      · simp [hs, ih, Replied200, hg]
      · simp [hs, Replied200, hg]

/-- The orders handed to the database by a concatenation of traces. -/
theorem creates_append (a b : List (Event Price)) :
    creates (a ++ b) = creates a ++ creates b := by
  induction a with
  | nil => rfl
  | cons e t ih => cases e <;> simp [creates, ih]

/-- C10. `CreateOrder` hands an order to the database only if the request body
decoded, the user lookup replied 200 and the menu lookup of every requested item
replied 200, and that order has the request's `UserID`, status "pending" and one
order item per request item, in request order, with that item's `MenuItemID` and
`Quantity` and the price decoded from the menu service's reply for it. If the
body does not decode, or the user lookup does not reply 200, or some item's menu
lookup does not reply 200, the response is 400 and nothing is handed to the
database. When all of them succeed exactly one order is handed to the database. -/
theorem CreateOrder_persists (w : World Price) (body : String) :
    (∀ order ∈ creates (CreateOrder w body).2,
      ∃ req, w.decodeRequest body = .ok req ∧
        Replied200 w (userURL req.UserID) ∧
        (∀ item ∈ req.Items, Replied200 w (menuURL item.MenuItemID)) ∧
        order.UserID = req.UserID ∧ order.Status = "pending" ∧
        List.Forall₂ (Snapshots w) req.Items order.OrderItems) ∧
    (∀ err, w.decodeRequest body = .error err →
      (CreateOrder w body).1.status = 400 ∧ creates (CreateOrder w body).2 = []) ∧
    (∀ req, w.decodeRequest body = .ok req → ¬ Replied200 w (userURL req.UserID) →
      (CreateOrder w body).1.status = 400 ∧ creates (CreateOrder w body).2 = []) ∧
    (∀ req, w.decodeRequest body = .ok req →
      (∃ item ∈ req.Items, ¬ Replied200 w (menuURL item.MenuItemID)) →
      (CreateOrder w body).1.status = 400 ∧ creates (CreateOrder w body).2 = []) ∧
    (∀ req, w.decodeRequest body = .ok req → Replied200 w (userURL req.UserID) →
      (∀ item ∈ req.Items, Replied200 w (menuURL item.MenuItemID)) →
      ∃ order, creates (CreateOrder w body).2 = [order]) := by
  cases hd : w.decodeRequest body with
  | error e => simp [CreateOrder, hd, httpError, creates]
  | ok req =>
    cases hu : w.httpGet (userURL req.UserID) with
    | error e =>
      have hnu : ¬ Replied200 w (userURL req.UserID) := by simp [Replied200, hu]
      simp [CreateOrder, hd, hu, httpError, creates, hnu]
    | ok userResp =>
      by_cases hs : userResp.StatusCode = 200
      · have hyes : Replied200 w (userURL req.UserID) := ⟨userResp, hu, hs⟩
        cases hml : menuLoop w req.Items [] with
        | mk res t =>
          have ht : creates t = [] := by
            have := creates_menuLoop w req.Items []
            rwa [hml] at this
          cases res with
          | none =>
            have hex : ∃ item ∈ req.Items, ¬ Replied200 w (menuURL item.MenuItemID) := by
              have := (menuLoop_none w req.Items []).mp (by rw [hml])
              exact this
            have hnall : ¬ ∀ item ∈ req.Items, Replied200 w (menuURL item.MenuItemID) := by
              obtain ⟨item, hi, hn⟩ := hex
              exact fun hall => hn (hall item hi)
            simp [CreateOrder, hd, hu, hs, hml, httpError, creates, ht, hyes, hnall, hex]
          | some items =>
            obtain ⟨hall, new, hout, hsnap⟩ :=
              menuLoop_some w req.Items [] items (by rw [hml])
            simp only [List.nil_append] at hout
            subst hout
            have hnex : ¬ ∃ item ∈ req.Items, ¬ Replied200 w (menuURL item.MenuItemID) := by
              rintro ⟨item, hi, hn⟩
              exact hn (hall item hi)
            cases hdb : w.dbCreate ⟨req.UserID, "pending", items⟩ <;>
              simp [CreateOrder, hd, hu, hs, hml, hdb, httpError, creates, creates_append, ht,
                hyes, hnex, hall, hsnap] <;>
              exact hall
      · have hnu : ¬ Replied200 w (userURL req.UserID) := by
          simp [Replied200, hu, hs]
        simp [CreateOrder, hd, hu, hs, httpError, creates, hnu]

/-- Witness of C10: an order for items 2 and 1, in this order, by user 1 is
stored with the prices of the two menu replies; an order naming the unknown menu
item 9 is answered 400 and nothing is stored. -/
theorem CreateOrder_persists_witness :
    creates (CreateOrder sampleWorld "order").2
      = [{ UserID := 1, Status := "pending",
           OrderItems := [⟨2, 3, 500⟩, ⟨1, 1, 250⟩] }] ∧
    (∃ req, sampleWorld.decodeRequest "order" = .ok req ∧
      List.Forall₂ (Snapshots sampleWorld) req.Items
        [(⟨2, 3, 500⟩ : OrderItem Nat), ⟨1, 1, 250⟩]) ∧
    (CreateOrder sampleWorld "unknown item").1.status = 400 ∧
    creates (CreateOrder sampleWorld "unknown item").2 = [] := by
  have h := CreateOrder_persists sampleWorld "order"
  have h' := CreateOrder_persists sampleWorld "unknown item"
  refine ⟨rfl, ?_, ?_⟩
  · obtain ⟨req, hreq, _, _, _, _, hsnap⟩ :=
      h.1 { UserID := 1, Status := "pending", OrderItems := [⟨2, 3, 500⟩, ⟨1, 1, 250⟩] }
        (by rw [show creates (CreateOrder sampleWorld "order").2
              = [⟨1, "pending", [⟨2, 3, 500⟩, ⟨1, 1, 250⟩]⟩] from rfl]
            exact List.mem_singleton.mpr rfl)
    exact ⟨req, hreq, hsnap⟩
  · exact h'.2.2.2.1 { UserID := 1, Items := [⟨2, 3⟩, ⟨9, 1⟩] } rfl
      ⟨⟨9, 1⟩, by simp, by
        rintro ⟨resp, hresp, hstatus⟩
        have h404 : sampleWorld.httpGet (menuURL 9) = .ok ⟨404, ""⟩ := rfl
        rw [h404] at hresp
        injection hresp with hresp
        subst hresp
        simp at hstatus⟩

end Theorems

end OrderService
